import Mathlib

/-!
Verification of the hex-telemetry decoder of this repository
(`parse_hex_content`, `convert_dmm_to_decimal`, `format_coords`,
`format_altitude`, `format_parsed_data_for_display` in `http_server3.py`,
the most evolved revision, which the specification adopts as canonical).

Python values are modelled as follows: byte strings become `List Nat`
(each element a byte value `< 256` produced by `unhexlify`), text strings
become `String`, dictionary keys that may be absent become `Option`
fields of a structure, numbers produced from short decimal literals
become exact rationals (`ℚ`) — the decimal strings handled here always
have few enough digits that the float computations of the source round
exactly the same way, see the comments at `round6` and `fmt1Tenths` —
and every operation that can raise in Python (`binascii.unhexlify`,
`bytes.decode`, `float`) is modelled as an `Option`-returning function
whose failure case mirrors the `except` branch of the source.
-/

namespace Telemetry

/-- Character class `[0-9]` (code points 48–57; Python's `\d`
additionally admits other Unicode digits, which cannot occur in the
ASCII-decoded fields handled here). -/
def isAsciiDigit (c : Char) : Bool := 48 ≤ c.toNat && c.toNat ≤ 57

/-- Character class `[0-9a-fA-F]` of the hex-validation regex
`re.fullmatch(r'^[0-9a-fA-F]*$', hex_str)`. -/
def pyIsHexDigit (c : Char) : Bool :=
  isAsciiDigit c || (97 ≤ c.toNat && c.toNat ≤ 102) || (65 ≤ c.toNat && c.toNat ≤ 70)

/-- Value of a single hex digit. -/
def hexDigitVal (c : Char) : Nat :=
  if isAsciiDigit c then c.toNat - 48
  else if 97 ≤ c.toNat && c.toNat ≤ 102 then c.toNat - 87
  else c.toNat - 55

/-- Models `binascii.unhexlify`: pairs of hex digits become bytes;
an odd-length or non-hex input raises `binascii.Error`, modelled as
`none`. -/
def unhexlify : List Char → Option (List Nat)
  | [] => some []
  | [_] => none
  | c1 :: c2 :: rest =>
    if pyIsHexDigit c1 && pyIsHexDigit c2 then
      (unhexlify rest).map (fun bs => (hexDigitVal c1 * 16 + hexDigitVal c2) :: bs)
    else none

/-- Lowercase hex digit character, as emitted by `binascii.hexlify` and
`bytes.hex()`. -/
def hexCharLower (n : Nat) : Char :=
  if n < 10 then Char.ofNat (48 + n) else Char.ofNat (87 + n)

/-- Uppercase hex digit character, as emitted by the `{:02X}` format. -/
def hexCharUpper (n : Nat) : Char :=
  if n < 10 then Char.ofNat (48 + n) else Char.ofNat (55 + n)

/-- Two lowercase hex digits of one byte (`bytes([b]).hex()`). -/
def byteHexLower (b : Nat) : String :=
  String.mk [hexCharLower (b / 16 % 16), hexCharLower (b % 16)]

/-- Models the Python format `f"0x{b:02X}"` for a byte value. -/
def pyHexByteUpper (b : Nat) : String :=
  String.mk ['0', 'x', hexCharUpper (b / 16 % 16), hexCharUpper (b % 16)]

/-- Models `binascii.hexlify(bs).decode()` (lowercase, two digits per
byte). -/
def hexlifyLower (bs : List Nat) : String :=
  String.join (bs.map byteHexLower)

/-- Models `bs.decode('ascii')` on success: every byte below 0x80, each
becoming the character of its code point. The failure case (`none`) is
the `UnicodeDecodeError` branch. -/
def asciiDecode (bs : List Nat) : Option String :=
  if bs.all (· < 128) then some (String.mk (bs.map Char.ofNat)) else none

/-- The string `bs.decode('ascii')` yields when it succeeds. -/
def asciiStr (bs : List Nat) : String :=
  String.mk (bs.map Char.ofNat)

/-- Models `parsed_data.get('parse_warning_detail', '') + msg`: warnings
accumulate by string concatenation, each message carrying its leading
space. -/
def appendWarn (w : Option String) (msg : String) : Option String :=
  some (w.getD "" ++ msg)

/-- The whitespace class of Python's `str.strip()` (the ASCII part;
the Unicode extras cannot occur in the strings stripped here). -/
def isPySpace (c : Char) : Bool :=
  c = ' ' || c = '\t' || c = '\n' || c = '\r' || c = '\x0b' || c = '\x0c'

/-- Models `str.strip()`: drop whitespace from both ends. -/
def pyStrip (s : String) : String :=
  String.mk (((s.toList.dropWhile isPySpace).reverse.dropWhile isPySpace).reverse)

/-- Synthetic character standing for the one character Python's GBK
codec yields for an assigned double-byte sequence. The claims proved
below depend only on the emitted length (one character), never on which
character the codec table assigns, so the table itself is not
reproduced; the chosen code points are injective for lead byte
0x81–0xFE and trail byte 0x40–0xFE. -/
def gbkPairChar (b1 b2 : Nat) : Char :=
  Char.ofNat (0x3400 + (b1 % 256 - 0x81) * 190 +
    (if b2 % 256 < 0x7F then b2 % 256 - 0x40 else b2 % 256 - 0x41))

/-- Models `bytes([b1, b2]).decode('gbk')`. GBK is ASCII-compatible:
two bytes below 0x80 decode to the two ASCII characters; a lead byte in
0x81–0xFE with a trail byte in 0x40–0xFE (except 0x7F) decodes to one
double-byte character (the source's codec raises on the unassigned
pairs inside that range; the claims below are insensitive to which
in-range pairs are assigned, see `gbkPairChar`); everything else raises
`UnicodeDecodeError`, modelled as `none`. -/
def gbkDecode2 (b1 b2 : Nat) : Option String :=
  if b1 < 128 then
    if b2 < 128 then some (String.mk [Char.ofNat b1, Char.ofNat b2]) else none
  else if 0x81 ≤ b1 && b1 ≤ 0xFE && 0x40 ≤ b2 && b2 ≤ 0xFE && b2 ≠ 0x7F then
    some (String.mk [gbkPairChar b1 b2])
  else none

/-- One step of the single-byte fallback of the trailing-text loop:
`bytes([b]).decode('ascii')` if it succeeds, else the bracketed hex
escape `f"<{bytes([b]).hex()}>"`. -/
def asciiOrEscape (b : Nat) : String :=
  if b < 128 then String.mk [Char.ofNat b]
  else "<" ++ byteHexLower b ++ ">"

/-- The mixed GBK/ASCII loop over the trailing bytes (`自定义数据`,
lines 194–220 of the source), with the final `''.join` fused in: while
at least two bytes remain try GBK on the next two, otherwise or on
failure fall back to one ASCII byte, otherwise emit the hex escape. -/
def mixedDecode : List Nat → String
  | [] => ""
  | [b] => asciiOrEscape b
  | b1 :: b2 :: rest =>
    match gbkDecode2 b1 b2 with
    | some s => s ++ mixedDecode rest
    | none => asciiOrEscape b1 ++ mixedDecode (b2 :: rest)

/-- The dictionary `parse_hex_content` builds. Keys that the source may
leave unset are `Option` fields (`none` = key absent). Field names
transliterate the source's keys: `dataId` = `数据标识`, `locTime` =
`定位时间`, `latHemi` = `纬度半球`, `latRaw` = `原始纬度值`, `lonHemi` =
`经度半球`, `lonRaw` = `原始经度值`, `altitudeRaw` = `高程`,
`sepByte` = `隔离符`, `customData` = `自定义数据`. -/
structure ParsedData where
  rawHexContent : String
  statusText : Option String := none
  statusClass : Option String := none
  errorDetail : Option String := none
  warningDetail : Option String := none
  dataId : Option String := none
  locTime : Option String := none
  latHemi : Option String := none
  latRaw : Option String := none
  lonHemi : Option String := none
  lonRaw : Option String := none
  altitudeRaw : Option String := none
  sepByte : Option String := none
  customData : Option String := none
  deriving Repr, DecidableEq

/-- The early-return pattern of every truncation branch: set
`parse_status_text = "解析错误"`, `parse_status_class = "error-text"`,
`parse_error_detail = detail` and return at once. -/
def fatalWith (pd : ParsedData) (detail : String) : ParsedData :=
  { pd with statusText := some "解析错误", statusClass := some "error-text",
            errorDetail := some detail }

/-- One fixed-width ASCII field block of `parse_hex_content`: check
`total_len < offset + len` (`none` = the truncation early return),
slice `byte_data[off : off + len]`, decode as ASCII, and on
`UnicodeDecodeError` substitute the bracketed hex escape and append the
field's warning to the accumulated warning detail. -/
def sliceField (bd : List Nat) (off len : Nat) (w : Option String)
    (warnMsg : String) : Option (String × Option String) :=
  if bd.length < off + len then none
  else
    let slice := (bd.drop off).take len
    if slice.all (· < 128) then some (asciiStr slice, w)
    else some ("<" ++ hexlifyLower slice ++ "> (解码失败)", appendWarn w warnMsg)

/-- The text component `sliceField` yields for an in-range field:
the ASCII decode on success, the bracketed hex escape on failure. -/
def sliceStrOf (bd : List Nat) (off len : Nat) : String :=
  if ((bd.drop off).take len).all (· < 128) then asciiStr ((bd.drop off).take len)
  else "<" ++ hexlifyLower ((bd.drop off).take len) ++ "> (解码失败)"

/-- The warning component `sliceField` yields for an in-range field:
unchanged on decode success, appended on failure. -/
def sliceWarnOf (bd : List Nat) (off len : Nat) (w : Option String)
    (warnMsg : String) : Option String :=
  if ((bd.drop off).take len).all (· < 128) then w else appendWarn w warnMsg

/-- The byte-level body of `parse_hex_content` (lines 89–233): marker
byte, seven fixed fields at fixed offsets, trailing mixed-encoding
text, then the final status classification. -/
def parseHexBytes (s : String) (bd : List Nat) : ParsedData :=
  let pd0 : ParsedData := { rawHexContent := s }
  if bd.length < 1 then fatalWith pd0 "数据长度不足，无法解析数据标识。"
  else
    let dataId := bd.getD 0 0
    let pd1 : ParsedData :=
      { pd0 with dataId := some (pyHexByteUpper dataId),
                 warningDetail :=
                   if dataId ≠ 0xA4 then appendWarn pd0.warningDetail " 数据标识不是 0xA4。"
                   else pd0.warningDetail }
    match sliceField bd 1 8 pd1.warningDetail " 定位时间解码为 ASCII 失败。" with
    | none => fatalWith pd1 "数据长度不足，无法解析定位时间。"
    | some (ts, w2) =>
      let pd2 : ParsedData := { pd1 with locTime := some ts, warningDetail := w2 }
      match sliceField bd 9 1 w2 " 纬度半球解码为 ASCII 失败。" with
      | none => fatalWith pd2 "数据长度不足，无法解析纬度半球。"
      | some (lh, w3) =>
        let pd3 : ParsedData := { pd2 with latHemi := some lh, warningDetail := w3 }
        match sliceField bd 10 10 w3 " 原始纬度值解码为 ASCII 失败。" with
        | none => fatalWith pd3 "数据长度不足，无法解析纬度。"
        | some (lat, w4) =>
          let pd4 : ParsedData := { pd3 with latRaw := some lat, warningDetail := w4 }
          match sliceField bd 20 1 w4 " 经度半球解码为 ASCII 失败。" with
          | none => fatalWith pd4 "数据长度不足，无法解析经度半球。"
          | some (gh, w5) =>
            let pd5 : ParsedData := { pd4 with lonHemi := some gh, warningDetail := w5 }
            match sliceField bd 21 11 w5 " 原始经度值解码为 ASCII 失败。" with
            | none => fatalWith pd5 "数据长度不足，无法解析经度。"
            | some (lon, w6) =>
              let pd6 : ParsedData := { pd5 with lonRaw := some lon, warningDetail := w6 }
              match sliceField bd 32 8 w6 " 高程解码为 ASCII 失败。" with
              | none => fatalWith pd6 "数据长度不足，无法解析高程。"
              | some (alt, w7) =>
                let pd7 : ParsedData := { pd6 with altitudeRaw := some alt, warningDetail := w7 }
                if bd.length < 41 then fatalWith pd7 "数据长度不足，无法解析隔离符。"
                else
                  let sep := bd.getD 40 0
                  let pd8 : ParsedData :=
                    { pd7 with sepByte := some (pyHexByteUpper sep),
                               warningDetail :=
                                 if sep ≠ 0x2D then
                                   appendWarn w7 " 隔离符不是 \x27-\x27 (0x2D)。"
                                 else w7 }
                  let pd9 : ParsedData :=
                    { pd8 with customData := some (mixedDecode (bd.drop 41)) }
                  if pd9.errorDetail.isSome then
                    { pd9 with statusText := some (pd9.statusText.getD "解析错误"),
                               statusClass := some "error-text" }
                  else
                    match pd9.warningDetail with
                    | some w =>
                      { pd9 with statusText := some ("解析警告: " ++ pyStrip w),
                                 statusClass := some "error-text" }
                    | none =>
                      { pd9 with statusText := some "解析成功",
                                 statusClass := some "success-text" }

/-- Models `parse_hex_content` (lines 69–233): hex-character
validation, `binascii.unhexlify` (whose only possible failure after the
character check is an odd-length string, raising
`binascii.Error("Odd-length string")`), then the byte-level parse. -/
def parse_hex_content (s : String) : ParsedData :=
  if ¬ (s.toList.all pyIsHexDigit) then
    { rawHexContent := s, statusText := some "十六进制字符串格式错误",
      statusClass := some "error-text",
      errorDetail := some "输入不是有效的十六进制字符串。" }
  else
    match unhexlify s.toList with
    | none =>
      { rawHexContent := s, statusText := some "十六进制解码错误",
        statusClass := some "error-text",
        errorDetail := some "十六进制字符串解码失败: Odd-length string" }
    | some bd => parseHexBytes s bd

/-- Models the effect of `$` in Python's `re.match`: `$` also matches
just before one newline at the very end of the string, so matching a
`...$` pattern against `s` is matching the plain pattern against `s`
with one trailing newline removed. -/
def stripNl (s : String) : String :=
  if s.toList.getLast? = some '\n' then String.mk s.toList.dropLast else s

/-- Numeric value of a digit string (what Python's `int` returns on
it). -/
def digitsVal (l : List Char) : Nat :=
  l.foldl (fun acc c => acc * 10 + (c.toNat - 48)) 0

/-- Shape check of `re.match(r'^\d+\.\d+$', s)` on `stripNl s`: one or
more digits, a dot, one or more digits. -/
def numDotNum (l : List Char) : Bool :=
  let ip := l.takeWhile isAsciiDigit
  match l.drop ip.length with
  | c :: fp => c = '.' && !ip.isEmpty && !fp.isEmpty && fp.all isAsciiDigit
  | [] => false

/-- Models `re.match(r'^\d+\.\d+$', s)` (as a Boolean). -/
def pyMatchNumDotNum (s : String) : Bool :=
  numDotNum (stripNl s).toList

/-- Round half to even at integer precision, the rounding `round`
applies: with the exact rational in hand this is floor, ceiling, or the
even neighbour at an exact half. -/
def roundHalfEven (q : ℚ) : ℤ :=
  if q - ⌊q⌋ < 1/2 then ⌊q⌋
  else if 1/2 < q - ⌊q⌋ then ⌊q⌋ + 1
  else if ⌊q⌋ % 2 = 0 then ⌊q⌋ else ⌊q⌋ + 1

/-- Decimal rounding half to even at six places (on the exact value;
an exact tie cannot arise from a binary64 input, see `pyRound6`). -/
def round6 (q : ℚ) : ℚ :=
  (roundHalfEven (q * 1000000) : ℚ) / 1000000

/-- Multiplication by an integer power of two, kept in natural-number
powers so that it evaluates inside the kernel. -/
def mulPow2 (q : ℚ) (k : ℤ) : ℚ :=
  if 0 ≤ k then q * 2 ^ k.toNat else q / 2 ^ (-k).toNat

/-- Floor of the base-two logarithm of a positive rational, computed
through the kernel-accelerated `Nat.log2` of numerator and denominator
with one comparison to settle the off-by-one. -/
def ratLog2 (a : ℚ) : ℤ :=
  let e0 : ℤ := (Nat.log2 a.num.natAbs : ℤ) - (Nat.log2 a.den : ℤ)
  if mulPow2 1 e0 ≤ a then e0 else e0 - 1

/-- Rounds an exact rational to the nearest IEEE binary64 value
(round half to even on a 53-bit significand), the rounding every
arithmetic operation and decimal-literal conversion of the source's
floats performs. Exponent limits are not modelled: the values reaching
`fl` in this development are either far inside the normal range or so
small that the subsequent `round(…, 6)` sends both the true float and
this idealization to zero. -/
def fl (q : ℚ) : ℚ :=
  if q = 0 then 0
  else
    (if q < 0 then -1 else 1) *
      mulPow2 (roundHalfEven (mulPow2 |q| (52 - ratLog2 |q|)) : ℚ) (ratLog2 |q| - 52)

/-- Models Python's `round(x, 6)` on a float `x`: the decimal rounding
of the exact value of `x` at six places, returned as the nearest
float. -/
def pyRound6 (x : ℚ) : ℚ := fl (round6 x)

/-- Models `convert_dmm_to_decimal(dmm_str, hemisphere)` (lines
235–260): `None` arguments fail the `isinstance` check; the raw string
must match `^\d+\.\d+$` and its integer part must have length 4
(`ddmm.m…`) or 5 (`dddmm.m…`); degrees are the first 2 (resp. 3)
digits, minutes the remaining 2 integer digits plus the fractional
part; negate for hemisphere `'S'` or `'W'`; round to 6 decimals. The
single split on `'.'` is realized by `takeWhile`/`drop`, equal to
`split('.')` under the exactly-one-dot shape the regex guarantees. The
float steps of the source — `float(minute-string)`, the division by
60, the addition of the integer degrees, and `round(…, 6)` — each
round their exact result to binary64, modelled by `fl`; the negation
is exact, as in IEEE. -/
def convert_dmm_to_decimal (dmm hemisphere : Option String) : Option ℚ :=
  match dmm with
  | none => none
  | some ds =>
    if ¬ pyMatchNumDotNum ds then none
    else
      let l := (stripNl ds).toList
      let ip := l.takeWhile isAsciiDigit
      let fp := l.drop (ip.length + 1)
      if ip.length = 4 then
        let degrees : ℚ := (digitsVal (ip.take 2) : ℕ)
        let minutes : ℚ :=
          fl ((digitsVal (ip.drop 2) : ℕ) + (digitsVal fp : ℕ) / (10 : ℚ) ^ fp.length)
        let d := fl (degrees + fl (minutes / 60))
        let d := if hemisphere = some "S" ∨ hemisphere = some "W" then -d else d
        some (pyRound6 d)
      else if ip.length = 5 then
        let degrees : ℚ := (digitsVal (ip.take 3) : ℕ)
        let minutes : ℚ :=
          fl ((digitsVal (ip.drop 3) : ℕ) + (digitsVal fp : ℕ) / (10 : ℚ) ^ fp.length)
        let d := fl (degrees + fl (minutes / 60))
        let d := if hemisphere = some "S" ∨ hemisphere = some "W" then -d else d
        some (pyRound6 d)
      else none

/-- Models `re.match(r'^[0-9.]+$', value_str)` on coordinate display
input. -/
def pyMatchCoordClass (s : String) : Bool :=
  let l := (stripNl s).toList
  !l.isEmpty && l.all (fun c => isAsciiDigit c || c = '.')

/-- Models the group extraction of
`re.match(r'^(\d+)(\d{2}\.\d{5})$', value_str)`: the integer digit run
must be at least 3 long and be followed by a dot and exactly 5 digits;
group 1 is every integer digit but the last two, group 2 the last two
integer digits, the dot, and the 5 fractional digits. -/
def coordGroups (s : String) : Option (String × String) :=
  let l := (stripNl s).toList
  let ip := l.takeWhile isAsciiDigit
  match l.drop ip.length with
  | c :: fp =>
    if c = '.' && 3 ≤ ip.length && fp.length = 5 && fp.all isAsciiDigit then
      some (String.mk (ip.take (ip.length - 2)),
            String.mk (ip.drop (ip.length - 2)) ++ "." ++ String.mk fp)
    else none
  | [] => none

/-- Models `hemi_map.get(hemisphere.upper(), hemisphere)`: the four
known letters localize, anything else passes through unchanged. -/
def hemiFull (h : String) : String :=
  let u := h.toUpper
  if u = "N" then "北纬"
  else if u = "S" then "南纬"
  else if u = "E" then "东经"
  else if u = "W" then "西经"
  else h

/-- Models `format_coords(hemisphere, value_str)` (lines 262–288).
`None` arguments fail the `isinstance` check and render as the empty
string within the malformed annotation. The `except` branch of the
source is unreachable (no operation in the `try` body can raise) and is
not modelled. -/
def format_coords (hemisphere value : Option String) : String :=
  match hemisphere, value with
  | some h, some v =>
    if pyMatchCoordClass v then
      match coordGroups v with
      | some (ds, ms) => hemiFull h ++ ds ++ "°" ++ ms ++ "\x27"
      | none => h ++ v ++ " (格式不符)"
    else h ++ v ++ " (格式错误或缺失)"
  | h, v => h.getD "" ++ v.getD "" ++ " (格式错误或缺失)"

/-- Shape check of `re.match(r'^[+-]?[0-9]{1,5}\.[0-9]$', alt_str)` on
`stripNl alt`: optional sign, one to five digits, a dot, exactly one
digit. -/
def altShape (s : String) : Bool :=
  let l := (stripNl s).toList
  let l' := match l with
            | c :: rest => if c = '+' || c = '-' then rest else l
            | [] => l
  let ds := l'.takeWhile isAsciiDigit
  match l'.drop ds.length with
  | c :: d :: rest =>
    c = '.' && rest.isEmpty && decide (1 ≤ ds.length) && decide (ds.length ≤ 5) &&
      isAsciiDigit d
  | _ => false

/-- Magnitude of a shape-matching altitude string in tenths (the value
`abs(float(alt_str)) * 10`, exact because the matched strings are
fixed-point with one fractional digit). -/
def altTenths (s : String) : ℕ :=
  let l := (stripNl s).toList
  let l' := match l with
            | c :: rest => if c = '+' || c = '-' then rest else l
            | [] => l
  let ds := l'.takeWhile isAsciiDigit
  match l'.drop ds.length with
  | _ :: d :: _ => digitsVal ds * 10 + (d.toNat - 48)
  | _ => 0

/-- Renders a non-negative tenths magnitude the way `f"{value:.1f}"`
renders its absolute value: integer part without padding, a dot, one
digit (exact for the at-most-six-significant-digit values arising here,
where the float rounds back to the same decimal). -/
def fmt1Tenths (n : ℕ) : String :=
  toString (n / 10) ++ "." ++ toString (n % 10)

/-- Models `format_altitude(alt_str)` (lines 290–303). `f"{value:.1f}"`
prints a minus sign exactly when the parsed float is negative or
negative zero, i.e. when the matched string carries a `'-'` sign; the
`value >= 0` test is true for negative zero as well, which is why a
`'-'`-signed zero gets a second, `'+'`, sign prepended. The `except`
branch is unreachable (`float` cannot fail on a matched string). -/
def format_altitude (alt : String) : String :=
  if ¬ altShape alt then alt ++ " (格式错误或缺失)"
  else
    let hasMinus := (stripNl alt).toList.head? = some '-'
    let n := altTenths alt
    let rendered := (if hasMinus then "-" else "") ++ fmt1Tenths n
    if ¬ hasMinus ∨ n = 0 then "+" ++ rendered ++ "米" else rendered ++ "米"

/-- The decoder-relevant part of the flat dictionary
`format_parsed_data_for_display` returns. The envelope fields copied
verbatim from `raw_post_data` (`IdNumber`, `MessageId`, …) and the
`json.dumps` echo belong to the external HTTP collaborator and are
outside the decoder result modelled here. Field names transliterate
the keys: `latDisplay` = `纬度`, `lonDisplay` = `经度`, `altDisplay` =
`高程`, `customDisplay` = `自定义数据`. -/
structure FormattedData where
  statusTextF : String
  statusClassF : String
  dataIdF : String
  locTimeF : String
  latDisplay : String
  lonDisplay : String
  altDisplay : String
  customDisplay : String
  decimal_latitude : Option ℚ
  decimal_longitude : Option ℚ
  deriving Repr, DecidableEq

/-- Models `format_parsed_data_for_display(parsed_data, …)` (lines
306–360) on the decoder fields: defaults of `'N/A'`/`None`, the
early return that keeps only raw information when
`parse_status_class == 'error-text'` (which is also the class of
warning outcomes), and otherwise the coordinate, altitude, and decimal
conversions. -/
def format_parsed_data_for_display (pd : ParsedData) : FormattedData :=
  let base : FormattedData :=
    { statusTextF := pd.statusText.getD "未知状态",
      statusClassF := pd.statusClass.getD "",
      dataIdF := pd.dataId.getD "N/A",
      locTimeF := pd.locTime.getD "N/A",
      latDisplay := "N/A", lonDisplay := "N/A", altDisplay := "N/A",
      customDisplay := pd.customData.getD "N/A",
      decimal_latitude := none, decimal_longitude := none }
  if pd.statusClass = some "error-text" then base
  else
    { base with
      latDisplay := format_coords pd.latHemi pd.latRaw,
      decimal_latitude := convert_dmm_to_decimal pd.latRaw pd.latHemi,
      lonDisplay := format_coords pd.lonHemi pd.lonRaw,
      decimal_longitude := convert_dmm_to_decimal pd.lonRaw pd.lonHemi,
      altDisplay := format_altitude (pd.altitudeRaw.getD "N/A") }

/-- Wire-order fatal message for a buffer of `n` bytes that is too
short (`n < 41`): the first field whose extraction the length check
rejects, in the fixed order marker (needs 1 byte), timestamp (9),
latitude hemisphere (10), latitude (20), longitude hemisphere (21),
longitude (32), altitude (40), separator (41). -/
def insufficientDetail (n : Nat) : String :=
  if n < 1 then "数据长度不足，无法解析数据标识。"
  else if n < 9 then "数据长度不足，无法解析定位时间。"
  else if n < 10 then "数据长度不足，无法解析纬度半球。"
  else if n < 20 then "数据长度不足，无法解析纬度。"
  else if n < 21 then "数据长度不足，无法解析经度半球。"
  else if n < 32 then "数据长度不足，无法解析经度。"
  else if n < 40 then "数据长度不足，无法解析高程。"
  else "数据长度不足，无法解析隔离符。"

/-- For a buffer of `n` bytes, every field at or after the truncation
point is absent from the result. -/
def unpopulatedFrom (n : Nat) (pd : ParsedData) : Prop :=
  (n < 1 → pd.dataId = none) ∧ (n < 9 → pd.locTime = none) ∧
  (n < 10 → pd.latHemi = none) ∧ (n < 20 → pd.latRaw = none) ∧
  (n < 21 → pd.lonHemi = none) ∧ (n < 32 → pd.lonRaw = none) ∧
  (n < 40 → pd.altitudeRaw = none) ∧
  (n < 41 → pd.sepByte = none ∧ pd.customData = none)

/-- The documented latitude pattern `DDMM.MMMMM`: exactly four digits,
a dot, exactly five digits. -/
def latShapeDDMM (s : String) : Bool :=
  let l := s.toList
  let ip := l.takeWhile isAsciiDigit
  match l.drop ip.length with
  | c :: fp =>
    c = '.' && decide (ip.length = 4) && decide (fp.length = 5) && fp.all isAsciiDigit
  | [] => false

/-- The documented longitude pattern `DDDMM.MMMMM`: exactly five
digits, a dot, exactly five digits. -/
def lonShapeDDDMM (s : String) : Bool :=
  let l := s.toList
  let ip := l.takeWhile isAsciiDigit
  match l.drop ip.length with
  | c :: fp =>
    c = '.' && decide (ip.length = 5) && decide (fp.length = 5) && fp.all isAsciiDigit
  | [] => false

/-- Spec-side shape of the raw strings `convert_dmm_to_decimal`
normalizes (for the claim that it yields a value exactly on this
shape): up to one trailing newline (admitted by `$`), four or five
digits, a dot, at least one digit. -/
def dmmShape (s : String) : Bool :=
  let l := (stripNl s).toList
  let ip := l.takeWhile isAsciiDigit
  match l.drop ip.length with
  | c :: fp =>
    c = '.' && (decide (ip.length = 4) || decide (ip.length = 5)) && !fp.isEmpty &&
      fp.all isAsciiDigit
  | [] => false

/-- Spec-side reading of the degree digits of a shape-matching raw
coordinate string: every integer digit except the last two (the first
two of a four-digit integer part, the first three of a five-digit
one). -/
def dmmDegrees (s : String) : ℕ :=
  let l := (stripNl s).toList
  let ip := l.takeWhile isAsciiDigit
  digitsVal (ip.take (ip.length - 2))

/-- Spec-side reading of the minutes of a shape-matching raw
coordinate string: the last two integer digits plus the fractional
part, as an exact rational. -/
def dmmMinutes (s : String) : ℚ :=
  let l := (stripNl s).toList
  let ip := l.takeWhile isAsciiDigit
  let fp := l.drop (ip.length + 1)
  (digitsVal (ip.drop (ip.length - 2)) : ℚ) + (digitsVal fp : ℚ) / (10 : ℚ) ^ fp.length

/-- The sign factor of a hemisphere letter: negative for `S` and `W`,
positive for every other value. -/
def hemiSign (hemi : String) : ℚ :=
  if hemi = "S" ∨ hemi = "W" then -1 else 1

end Telemetry


namespace Telemetry

theorem unhexlify_length (l : List Char) :
    ∀ bd, unhexlify l = some bd → l.length = 2 * bd.length := by
  induction l using unhexlify.induct with
  | case1 => intro bd h; simp [unhexlify] at h; subst h; simp
  | case2 c => intro bd h; simp [unhexlify] at h
  | case3 c1 c2 rest hg ih =>
    intro bd h
    simp only [unhexlify, hg, if_true] at h
    rw [Option.map_eq_some'] at h
    obtain ⟨a, ha, rfl⟩ := h
    simp [ih a ha]; omega
  | case4 c1 c2 rest hg =>
    intro bd h
    simp only [unhexlify, if_neg hg] at h
    exact absurd h (by simp)

theorem unhexlify_hex (l : List Char) :
    ∀ bd, unhexlify l = some bd → l.all pyIsHexDigit = true := by
  induction l using unhexlify.induct with
  | case1 => intro bd h; simp
  | case2 c => intro bd h; simp [unhexlify] at h
  | case3 c1 c2 rest hg ih =>
    intro bd h
    simp only [unhexlify, hg, if_true] at h
    rw [Option.map_eq_some'] at h
    obtain ⟨a, ha, rfl⟩ := h
    simp only [Bool.and_eq_true] at hg
    simp [hg.1, hg.2, ih a ha]
  | case4 c1 c2 rest hg =>
    intro bd h
    simp only [unhexlify, if_neg hg] at h
    exact absurd h (by simp)

theorem parse_hex_content_of_unhex (s : String) (bd : List Nat)
    (h : unhexlify s.toList = some bd) :
    parse_hex_content s = parseHexBytes s bd := by
  have hall := unhexlify_hex s.toList bd h
  simp only [parse_hex_content, hall, not_true, if_false, h]

theorem sliceField_eq_none (bd : List Nat) (off len : Nat) (w : Option String)
    (m : String) (h : bd.length < off + len) :
    sliceField bd off len w m = none := by
  simp [sliceField, h]

theorem sliceField_eq_some (bd : List Nat) (off len : Nat) (w : Option String)
    (m : String) (h : ¬ bd.length < off + len) :
    sliceField bd off len w m = some (sliceStrOf bd off len, sliceWarnOf bd off len w m) := by
  simp only [sliceField, sliceStrOf, sliceWarnOf, if_neg h]
  split <;> rfl

end Telemetry

namespace Telemetry

theorem parseHexBytes_cases (s : String) (bd : List Nat) :
    ((parseHexBytes s bd).errorDetail.isSome ∧
     (parseHexBytes s bd).statusText = some "解析错误" ∧
     (parseHexBytes s bd).statusClass = some "error-text") ∨
    ((parseHexBytes s bd).errorDetail = none ∧
     (∃ w, (parseHexBytes s bd).warningDetail = some w ∧
       (parseHexBytes s bd).statusText = some ("解析警告: " ++ pyStrip w)) ∧
     (parseHexBytes s bd).statusClass = some "error-text") ∨
    ((parseHexBytes s bd).errorDetail = none ∧
     (parseHexBytes s bd).warningDetail = none ∧
     (parseHexBytes s bd).statusText = some "解析成功" ∧
     (parseHexBytes s bd).statusClass = some "success-text") := by
  simp only [parseHexBytes]
  repeat' split
  all_goals simp_all [fatalWith]

end Telemetry

namespace Telemetry

theorem dropTake_of (bd pre mid post : List Nat) (o k : Nat)
    (hbd : bd = pre ++ (mid ++ post)) (ho : pre.length = o) (hk : mid.length = k) :
    (bd.drop o).take k = mid := by
  subst hbd; subst ho; subst hk
  rw [List.drop_left, List.take_left]

theorem getD_of (bd pre r : List Nat) (i : Nat)
    (hbd : bd = pre ++ r) (h : pre.length = i) :
    bd.getD i 0 = r.getD 0 0 := by
  subst hbd; subst h
  rw [List.getD_append_right _ _ _ _ le_rfl]
  simp

theorem drop_of (bd pre r : List Nat) (o : Nat)
    (hbd : bd = pre ++ r) (h : pre.length = o) :
    bd.drop o = r := by
  subst hbd; subst h; exact List.drop_left pre r

end Telemetry



namespace Telemetry

theorem parseHexBytes_clean (s : String) (ts latV lonV alt rest : List Nat) (lh gh : Nat)
    (hts : ts.length = 8) (hlat : latV.length = 10) (hlon : lonV.length = 11)
    (halt : alt.length = 8)
    (ats : ts.all (· < 128) = true) (alat : latV.all (· < 128) = true)
    (alon : lonV.all (· < 128) = true) (aalt : alt.all (· < 128) = true)
    (hlh : lh < 128) (hgh : gh < 128) :
    parseHexBytes s ([0xA4] ++ ts ++ [lh] ++ latV ++ [gh] ++ lonV ++ alt ++ [0x2D] ++ rest) =
    { rawHexContent := s,
      statusText := some "解析成功", statusClass := some "success-text",
      errorDetail := none, warningDetail := none,
      dataId := some "0xA4",
      locTime := some (asciiStr ts),
      latHemi := some (asciiStr [lh]),
      latRaw := some (asciiStr latV),
      lonHemi := some (asciiStr [gh]),
      lonRaw := some (asciiStr lonV),
      altitudeRaw := some (asciiStr alt),
      sepByte := some "0x2D",
      customData := some (mixedDecode rest) } := by
  have hlen : ([0xA4] ++ ts ++ [lh] ++ latV ++ [gh] ++ lonV ++ alt ++ [0x2D] ++ rest).length = 41 + rest.length := by
    simp [hts, hlat, hlon, halt]; omega
  have h0 : ([0xA4] ++ ts ++ [lh] ++ latV ++ [gh] ++ lonV ++ alt ++ [0x2D] ++ rest).getD 0 0 = 0xA4 := rfl
  have e1 : (([0xA4] ++ ts ++ [lh] ++ latV ++ [gh] ++ lonV ++ alt ++ [0x2D] ++ rest).drop 1).take 8 = ts :=
    dropTake_of _ ([0xA4]) ts ([lh] ++ latV ++ [gh] ++ lonV ++ alt ++ [0x2D] ++ rest) 1 8 (by simp) (by simp [hts, hlat, hlon, halt]) hts
  have e2 : (([0xA4] ++ ts ++ [lh] ++ latV ++ [gh] ++ lonV ++ alt ++ [0x2D] ++ rest).drop 9).take 1 = [lh] :=
    dropTake_of _ ([0xA4] ++ ts) [lh] (latV ++ [gh] ++ lonV ++ alt ++ [0x2D] ++ rest) 9 1 (by simp) (by simp [hts, hlat, hlon, halt]) rfl
  have e3 : (([0xA4] ++ ts ++ [lh] ++ latV ++ [gh] ++ lonV ++ alt ++ [0x2D] ++ rest).drop 10).take 10 = latV :=
    dropTake_of _ ([0xA4] ++ ts ++ [lh]) latV ([gh] ++ lonV ++ alt ++ [0x2D] ++ rest) 10 10 (by simp) (by simp [hts, hlat, hlon, halt]) hlat
  have e4 : (([0xA4] ++ ts ++ [lh] ++ latV ++ [gh] ++ lonV ++ alt ++ [0x2D] ++ rest).drop 20).take 1 = [gh] :=
    dropTake_of _ ([0xA4] ++ ts ++ [lh] ++ latV) [gh] (lonV ++ alt ++ [0x2D] ++ rest) 20 1 (by simp) (by simp [hts, hlat, hlon, halt]) rfl
  have e5 : (([0xA4] ++ ts ++ [lh] ++ latV ++ [gh] ++ lonV ++ alt ++ [0x2D] ++ rest).drop 21).take 11 = lonV :=
    dropTake_of _ ([0xA4] ++ ts ++ [lh] ++ latV ++ [gh]) lonV (alt ++ [0x2D] ++ rest) 21 11 (by simp) (by simp [hts, hlat, hlon, halt]) hlon
  have e6 : (([0xA4] ++ ts ++ [lh] ++ latV ++ [gh] ++ lonV ++ alt ++ [0x2D] ++ rest).drop 32).take 8 = alt :=
    dropTake_of _ ([0xA4] ++ ts ++ [lh] ++ latV ++ [gh] ++ lonV) alt ([0x2D] ++ rest) 32 8 (by simp) (by simp [hts, hlat, hlon, halt]) halt
  have h40 : ([0xA4] ++ ts ++ [lh] ++ latV ++ [gh] ++ lonV ++ alt ++ [0x2D] ++ rest).getD 40 0 = 0x2D :=
    (getD_of _ ([0xA4] ++ ts ++ [lh] ++ latV ++ [gh] ++ lonV ++ alt) ([0x2D] ++ rest) 40 (by simp) (by simp [hts, hlat, hlon, halt])).trans (by rfl)
  have h41 : ([0xA4] ++ ts ++ [lh] ++ latV ++ [gh] ++ lonV ++ alt ++ [0x2D] ++ rest).drop 41 = rest :=
    drop_of _ ([0xA4] ++ ts ++ [lh] ++ latV ++ [gh] ++ lonV ++ alt ++ [0x2D]) rest 41 (by simp) (by simp [hts, hlat, hlon, halt])
  have s1 : ∀ w m, sliceField ([0xA4] ++ ts ++ [lh] ++ latV ++ [gh] ++ lonV ++ alt ++ [0x2D] ++ rest) 1 8 w m = some (asciiStr ts, w) := by
    intro w m
    rw [sliceField_eq_some _ _ _ _ _ (by omega)]
    simp only [sliceStrOf, sliceWarnOf, e1]
    simp [ats]
  have s2 : ∀ w m, sliceField ([0xA4] ++ ts ++ [lh] ++ latV ++ [gh] ++ lonV ++ alt ++ [0x2D] ++ rest) 9 1 w m = some (asciiStr [lh], w) := by
    intro w m
    rw [sliceField_eq_some _ _ _ _ _ (by omega)]
    simp only [sliceStrOf, sliceWarnOf, e2]
    simp [hlh]
  have s3 : ∀ w m, sliceField ([0xA4] ++ ts ++ [lh] ++ latV ++ [gh] ++ lonV ++ alt ++ [0x2D] ++ rest) 10 10 w m = some (asciiStr latV, w) := by
    intro w m
    rw [sliceField_eq_some _ _ _ _ _ (by omega)]
    simp only [sliceStrOf, sliceWarnOf, e3]
    simp [alat]
  have s4 : ∀ w m, sliceField ([0xA4] ++ ts ++ [lh] ++ latV ++ [gh] ++ lonV ++ alt ++ [0x2D] ++ rest) 20 1 w m = some (asciiStr [gh], w) := by
    intro w m
    rw [sliceField_eq_some _ _ _ _ _ (by omega)]
    simp only [sliceStrOf, sliceWarnOf, e4]
    simp [hgh]
  have s5 : ∀ w m, sliceField ([0xA4] ++ ts ++ [lh] ++ latV ++ [gh] ++ lonV ++ alt ++ [0x2D] ++ rest) 21 11 w m = some (asciiStr lonV, w) := by
    intro w m
    rw [sliceField_eq_some _ _ _ _ _ (by omega)]
    simp only [sliceStrOf, sliceWarnOf, e5]
    simp [alon]
  have s6 : ∀ w m, sliceField ([0xA4] ++ ts ++ [lh] ++ latV ++ [gh] ++ lonV ++ alt ++ [0x2D] ++ rest) 32 8 w m = some (asciiStr alt, w) := by
    intro w m
    rw [sliceField_eq_some _ _ _ _ _ (by omega)]
    simp only [sliceStrOf, sliceWarnOf, e6]
    simp [aalt]
  simp only [parseHexBytes, h0, h40, h41, s1, s2, s3, s4, s5, s6, hlen]
  norm_num [pyHexByteUpper, hexCharUpper]

end Telemetry
namespace Telemetry

theorem parseHexBytes_trunc (s : String) (bd : List Nat) (h : bd.length < 41) :
    (parseHexBytes s bd).statusText = some "解析错误" ∧
    (parseHexBytes s bd).statusClass = some "error-text" ∧
    (parseHexBytes s bd).errorDetail = some (insufficientDetail bd.length) ∧
    unpopulatedFrom bd.length (parseHexBytes s bd) := by
  by_cases k1 : bd.length < 1
  · -- branch 1
    simp only [parseHexBytes, if_pos k1]
    refine ⟨by simp [fatalWith], by simp [fatalWith], ?_, ?_⟩
    · simp [fatalWith, insufficientDetail, k1]
    · simp [unpopulatedFrom, fatalWith]
  by_cases k9 : bd.length < 9
  · -- branch 2
    have sf : ∀ w m, sliceField bd 1 8 w m = none := fun w m => sliceField_eq_none _ _ _ _ _ (by omega)
    simp only [parseHexBytes, if_neg k1, sf]
    refine ⟨by simp [fatalWith], by simp [fatalWith], ?_, ?_⟩
    · simp [fatalWith, insufficientDetail, k1, k9]
    · simp [unpopulatedFrom, fatalWith, sliceStrOf, sliceWarnOf, k1, k9]
  by_cases k10 : bd.length < 10
  · -- branch 3
    have s1 : ∀ w m, sliceField bd 1 8 w m = some (sliceStrOf bd 1 8, sliceWarnOf bd 1 8 w m) := fun w m => sliceField_eq_some _ _ _ _ _ (by omega)
    have sf : ∀ w m, sliceField bd 9 1 w m = none := fun w m => sliceField_eq_none _ _ _ _ _ (by omega)
    simp only [parseHexBytes, if_neg k1, s1, sf]
    refine ⟨by simp [fatalWith], by simp [fatalWith], ?_, ?_⟩
    · simp [fatalWith, insufficientDetail, k1, k9, k10]
    · simp [unpopulatedFrom, fatalWith, sliceStrOf, sliceWarnOf, k1, k9, k10]
  by_cases k20 : bd.length < 20
  · -- branch 4
    have s1 : ∀ w m, sliceField bd 1 8 w m = some (sliceStrOf bd 1 8, sliceWarnOf bd 1 8 w m) := fun w m => sliceField_eq_some _ _ _ _ _ (by omega)
    have s2 : ∀ w m, sliceField bd 9 1 w m = some (sliceStrOf bd 9 1, sliceWarnOf bd 9 1 w m) := fun w m => sliceField_eq_some _ _ _ _ _ (by omega)
    have sf : ∀ w m, sliceField bd 10 10 w m = none := fun w m => sliceField_eq_none _ _ _ _ _ (by omega)
    simp only [parseHexBytes, if_neg k1, s1, s2, sf]
    refine ⟨by simp [fatalWith], by simp [fatalWith], ?_, ?_⟩
    · simp [fatalWith, insufficientDetail, k1, k9, k10, k20]
    · simp [unpopulatedFrom, fatalWith, sliceStrOf, sliceWarnOf, k1, k9, k10, k20]
  by_cases k21 : bd.length < 21
  · -- branch 5
    have s1 : ∀ w m, sliceField bd 1 8 w m = some (sliceStrOf bd 1 8, sliceWarnOf bd 1 8 w m) := fun w m => sliceField_eq_some _ _ _ _ _ (by omega)
    have s2 : ∀ w m, sliceField bd 9 1 w m = some (sliceStrOf bd 9 1, sliceWarnOf bd 9 1 w m) := fun w m => sliceField_eq_some _ _ _ _ _ (by omega)
    have s3 : ∀ w m, sliceField bd 10 10 w m = some (sliceStrOf bd 10 10, sliceWarnOf bd 10 10 w m) := fun w m => sliceField_eq_some _ _ _ _ _ (by omega)
    have sf : ∀ w m, sliceField bd 20 1 w m = none := fun w m => sliceField_eq_none _ _ _ _ _ (by omega)
    simp only [parseHexBytes, if_neg k1, s1, s2, s3, sf]
    refine ⟨by simp [fatalWith], by simp [fatalWith], ?_, ?_⟩
    · simp [fatalWith, insufficientDetail, k1, k9, k10, k20, k21]
    · simp [unpopulatedFrom, fatalWith, sliceStrOf, sliceWarnOf, k1, k9, k10, k20, k21]
  by_cases k32 : bd.length < 32
  · -- branch 6
    have s1 : ∀ w m, sliceField bd 1 8 w m = some (sliceStrOf bd 1 8, sliceWarnOf bd 1 8 w m) := fun w m => sliceField_eq_some _ _ _ _ _ (by omega)
    have s2 : ∀ w m, sliceField bd 9 1 w m = some (sliceStrOf bd 9 1, sliceWarnOf bd 9 1 w m) := fun w m => sliceField_eq_some _ _ _ _ _ (by omega)
    have s3 : ∀ w m, sliceField bd 10 10 w m = some (sliceStrOf bd 10 10, sliceWarnOf bd 10 10 w m) := fun w m => sliceField_eq_some _ _ _ _ _ (by omega)
    have s4 : ∀ w m, sliceField bd 20 1 w m = some (sliceStrOf bd 20 1, sliceWarnOf bd 20 1 w m) := fun w m => sliceField_eq_some _ _ _ _ _ (by omega)
    have sf : ∀ w m, sliceField bd 21 11 w m = none := fun w m => sliceField_eq_none _ _ _ _ _ (by omega)
    simp only [parseHexBytes, if_neg k1, s1, s2, s3, s4, sf]
    refine ⟨by simp [fatalWith], by simp [fatalWith], ?_, ?_⟩
    · simp [fatalWith, insufficientDetail, k1, k9, k10, k20, k21, k32]
    · simp [unpopulatedFrom, fatalWith, sliceStrOf, sliceWarnOf, k1, k9, k10, k20, k21, k32]
  by_cases k40 : bd.length < 40
  · -- branch 7
    have s1 : ∀ w m, sliceField bd 1 8 w m = some (sliceStrOf bd 1 8, sliceWarnOf bd 1 8 w m) := fun w m => sliceField_eq_some _ _ _ _ _ (by omega)
    have s2 : ∀ w m, sliceField bd 9 1 w m = some (sliceStrOf bd 9 1, sliceWarnOf bd 9 1 w m) := fun w m => sliceField_eq_some _ _ _ _ _ (by omega)
    have s3 : ∀ w m, sliceField bd 10 10 w m = some (sliceStrOf bd 10 10, sliceWarnOf bd 10 10 w m) := fun w m => sliceField_eq_some _ _ _ _ _ (by omega)
    have s4 : ∀ w m, sliceField bd 20 1 w m = some (sliceStrOf bd 20 1, sliceWarnOf bd 20 1 w m) := fun w m => sliceField_eq_some _ _ _ _ _ (by omega)
    have s5 : ∀ w m, sliceField bd 21 11 w m = some (sliceStrOf bd 21 11, sliceWarnOf bd 21 11 w m) := fun w m => sliceField_eq_some _ _ _ _ _ (by omega)
    have sf : ∀ w m, sliceField bd 32 8 w m = none := fun w m => sliceField_eq_none _ _ _ _ _ (by omega)
    simp only [parseHexBytes, if_neg k1, s1, s2, s3, s4, s5, sf]
    refine ⟨by simp [fatalWith], by simp [fatalWith], ?_, ?_⟩
    · simp [fatalWith, insufficientDetail, k1, k9, k10, k20, k21, k32, k40]
    · simp [unpopulatedFrom, fatalWith, sliceStrOf, sliceWarnOf, k1, k9, k10, k20, k21, k32, k40]
  -- final branch
  have s1 : ∀ w m, sliceField bd 1 8 w m = some (sliceStrOf bd 1 8, sliceWarnOf bd 1 8 w m) := fun w m => sliceField_eq_some _ _ _ _ _ (by omega)
  have s2 : ∀ w m, sliceField bd 9 1 w m = some (sliceStrOf bd 9 1, sliceWarnOf bd 9 1 w m) := fun w m => sliceField_eq_some _ _ _ _ _ (by omega)
  have s3 : ∀ w m, sliceField bd 10 10 w m = some (sliceStrOf bd 10 10, sliceWarnOf bd 10 10 w m) := fun w m => sliceField_eq_some _ _ _ _ _ (by omega)
  have s4 : ∀ w m, sliceField bd 20 1 w m = some (sliceStrOf bd 20 1, sliceWarnOf bd 20 1 w m) := fun w m => sliceField_eq_some _ _ _ _ _ (by omega)
  have s5 : ∀ w m, sliceField bd 21 11 w m = some (sliceStrOf bd 21 11, sliceWarnOf bd 21 11 w m) := fun w m => sliceField_eq_some _ _ _ _ _ (by omega)
  have s6 : ∀ w m, sliceField bd 32 8 w m = some (sliceStrOf bd 32 8, sliceWarnOf bd 32 8 w m) := fun w m => sliceField_eq_some _ _ _ _ _ (by omega)
  simp only [parseHexBytes, if_neg k1, s1, s2, s3, s4, s5, s6, if_pos h]
  refine ⟨by simp [fatalWith], by simp [fatalWith], ?_, ?_⟩
  · simp [fatalWith, insufficientDetail, k1, k9, k10, k20, k21, k32, k40]
  · simp [unpopulatedFrom, fatalWith, sliceStrOf, sliceWarnOf, k1, k9, k10, k20, k21, k32, k40]

end Telemetry

namespace Telemetry

theorem parseHexBytes_markerMismatch (s : String) (ts latV lonV alt rest : List Nat) (mk lh gh : Nat) (hmk : mk ≠ 0xA4)
    (hts : ts.length = 8) (hlat : latV.length = 10) (hlon : lonV.length = 11)
    (halt : alt.length = 8)
    (ats : ts.all (· < 128) = true) (alat : latV.all (· < 128) = true)
    (alon : lonV.all (· < 128) = true) (aalt : alt.all (· < 128) = true)
    (hlh : lh < 128) (hgh : gh < 128) :
    parseHexBytes s ([mk] ++ ts ++ [lh] ++ latV ++ [gh] ++ lonV ++ alt ++ [0x2D] ++ rest) =
    { rawHexContent := s,
      statusText := some "解析警告: 数据标识不是 0xA4。", statusClass := some "error-text",
      errorDetail := none, warningDetail := some " 数据标识不是 0xA4。",
      dataId := some (pyHexByteUpper mk),
      locTime := some (asciiStr ts),
      latHemi := some (asciiStr [lh]),
      latRaw := some (asciiStr latV),
      lonHemi := some (asciiStr [gh]),
      lonRaw := some (asciiStr lonV),
      altitudeRaw := some (asciiStr alt),
      sepByte := some "0x2D",
      customData := some (mixedDecode rest) } := by
  have hlen : ([mk] ++ ts ++ [lh] ++ latV ++ [gh] ++ lonV ++ alt ++ [0x2D] ++ rest).length = 41 + rest.length := by
    simp [hts, hlat, hlon, halt]; omega
  have h0 : ([mk] ++ ts ++ [lh] ++ latV ++ [gh] ++ lonV ++ alt ++ [0x2D] ++ rest).getD 0 0 = mk := rfl
  have e1 : (([mk] ++ ts ++ [lh] ++ latV ++ [gh] ++ lonV ++ alt ++ [0x2D] ++ rest).drop 1).take 8 = ts :=
    dropTake_of _ ([mk]) ts ([lh] ++ latV ++ [gh] ++ lonV ++ alt ++ [0x2D] ++ rest) 1 8 (by simp) (by simp [hts, hlat, hlon, halt]) hts
  have e2 : (([mk] ++ ts ++ [lh] ++ latV ++ [gh] ++ lonV ++ alt ++ [0x2D] ++ rest).drop 9).take 1 = [lh] :=
    dropTake_of _ ([mk] ++ ts) [lh] (latV ++ [gh] ++ lonV ++ alt ++ [0x2D] ++ rest) 9 1 (by simp) (by simp [hts, hlat, hlon, halt]) rfl
  have e3 : (([mk] ++ ts ++ [lh] ++ latV ++ [gh] ++ lonV ++ alt ++ [0x2D] ++ rest).drop 10).take 10 = latV :=
    dropTake_of _ ([mk] ++ ts ++ [lh]) latV ([gh] ++ lonV ++ alt ++ [0x2D] ++ rest) 10 10 (by simp) (by simp [hts, hlat, hlon, halt]) hlat
  have e4 : (([mk] ++ ts ++ [lh] ++ latV ++ [gh] ++ lonV ++ alt ++ [0x2D] ++ rest).drop 20).take 1 = [gh] :=
    dropTake_of _ ([mk] ++ ts ++ [lh] ++ latV) [gh] (lonV ++ alt ++ [0x2D] ++ rest) 20 1 (by simp) (by simp [hts, hlat, hlon, halt]) rfl
  have e5 : (([mk] ++ ts ++ [lh] ++ latV ++ [gh] ++ lonV ++ alt ++ [0x2D] ++ rest).drop 21).take 11 = lonV :=
    dropTake_of _ ([mk] ++ ts ++ [lh] ++ latV ++ [gh]) lonV (alt ++ [0x2D] ++ rest) 21 11 (by simp) (by simp [hts, hlat, hlon, halt]) hlon
  have e6 : (([mk] ++ ts ++ [lh] ++ latV ++ [gh] ++ lonV ++ alt ++ [0x2D] ++ rest).drop 32).take 8 = alt :=
    dropTake_of _ ([mk] ++ ts ++ [lh] ++ latV ++ [gh] ++ lonV) alt ([0x2D] ++ rest) 32 8 (by simp) (by simp [hts, hlat, hlon, halt]) halt
  have h40 : ([mk] ++ ts ++ [lh] ++ latV ++ [gh] ++ lonV ++ alt ++ [0x2D] ++ rest).getD 40 0 = 0x2D :=
    (getD_of _ ([mk] ++ ts ++ [lh] ++ latV ++ [gh] ++ lonV ++ alt) ([0x2D] ++ rest) 40 (by simp) (by simp [hts, hlat, hlon, halt])).trans (by rfl)
  have h41 : ([mk] ++ ts ++ [lh] ++ latV ++ [gh] ++ lonV ++ alt ++ [0x2D] ++ rest).drop 41 = rest :=
    drop_of _ ([mk] ++ ts ++ [lh] ++ latV ++ [gh] ++ lonV ++ alt ++ [0x2D]) rest 41 (by simp) (by simp [hts, hlat, hlon, halt])
  have s1 : ∀ w m, sliceField ([mk] ++ ts ++ [lh] ++ latV ++ [gh] ++ lonV ++ alt ++ [0x2D] ++ rest) 1 8 w m = some (asciiStr ts, w) := by
    intro w m
    rw [sliceField_eq_some _ _ _ _ _ (by omega)]
    simp only [sliceStrOf, sliceWarnOf, e1]
    simp [ats]
  have s2 : ∀ w m, sliceField ([mk] ++ ts ++ [lh] ++ latV ++ [gh] ++ lonV ++ alt ++ [0x2D] ++ rest) 9 1 w m = some (asciiStr [lh], w) := by
    intro w m
    rw [sliceField_eq_some _ _ _ _ _ (by omega)]
    simp only [sliceStrOf, sliceWarnOf, e2]
    simp [hlh]
  have s3 : ∀ w m, sliceField ([mk] ++ ts ++ [lh] ++ latV ++ [gh] ++ lonV ++ alt ++ [0x2D] ++ rest) 10 10 w m = some (asciiStr latV, w) := by
    intro w m
    rw [sliceField_eq_some _ _ _ _ _ (by omega)]
    simp only [sliceStrOf, sliceWarnOf, e3]
    simp [alat]
  have s4 : ∀ w m, sliceField ([mk] ++ ts ++ [lh] ++ latV ++ [gh] ++ lonV ++ alt ++ [0x2D] ++ rest) 20 1 w m = some (asciiStr [gh], w) := by
    intro w m
    rw [sliceField_eq_some _ _ _ _ _ (by omega)]
    simp only [sliceStrOf, sliceWarnOf, e4]
    simp [hgh]
  have s5 : ∀ w m, sliceField ([mk] ++ ts ++ [lh] ++ latV ++ [gh] ++ lonV ++ alt ++ [0x2D] ++ rest) 21 11 w m = some (asciiStr lonV, w) := by
    intro w m
    rw [sliceField_eq_some _ _ _ _ _ (by omega)]
    simp only [sliceStrOf, sliceWarnOf, e5]
    simp [alon]
  have s6 : ∀ w m, sliceField ([mk] ++ ts ++ [lh] ++ latV ++ [gh] ++ lonV ++ alt ++ [0x2D] ++ rest) 32 8 w m = some (asciiStr alt, w) := by
    intro w m
    rw [sliceField_eq_some _ _ _ _ _ (by omega)]
    simp only [sliceStrOf, sliceWarnOf, e6]
    simp [aalt]
  have htrim : pyStrip " 数据标识不是 0xA4。" = "数据标识不是 0xA4。" := by decide
  have hsep : pyHexByteUpper 0x2D = "0x2D" := by decide
  simp only [parseHexBytes, h0, h40, h41, s1, s2, s3, s4, s5, s6, hlen, hsep]
  norm_num [appendWarn, htrim, hmk]
  decide

end Telemetry
namespace Telemetry

theorem roundHalfEven_le (q : ℚ) : (roundHalfEven q : ℚ) ≤ q + 1/2 := by
  have h1 := Int.floor_le q
  have h2 := Int.lt_floor_add_one q
  unfold roundHalfEven
  split_ifs <;> push_cast <;> linarith

theorem le_roundHalfEven (q : ℚ) : q - 1/2 ≤ (roundHalfEven q : ℚ) := by
  have h1 := Int.floor_le q
  have h2 := Int.lt_floor_add_one q
  unfold roundHalfEven
  split_ifs <;> push_cast <;> linarith

theorem abs_roundHalfEven_sub (q : ℚ) : |(roundHalfEven q : ℚ) - q| ≤ 1/2 := by
  rw [abs_le]
  constructor
  · have := le_roundHalfEven q; linarith
  · have := roundHalfEven_le q; linarith

theorem mulPow2_eq (q : ℚ) (k : ℤ) : mulPow2 q k = q * (2 : ℚ) ^ k := by
  unfold mulPow2
  split_ifs with h
  · conv_rhs => rw [← Int.toNat_of_nonneg h, zpow_natCast]
  · have h2 : k = -(((-k).toNat : ℤ)) := by omega
    conv_rhs => rw [h2, zpow_neg, zpow_natCast]
    rw [div_eq_mul_inv]

theorem round6_err (x : ℚ) : |round6 x - x| ≤ 1/1000000 := by
  unfold round6
  have h := abs_roundHalfEven_sub (x * 1000000)
  rw [show (roundHalfEven (x * 1000000) : ℚ) / 1000000 - x
      = ((roundHalfEven (x * 1000000) : ℚ) - x * 1000000) / 1000000 from by ring]
  rw [abs_div]
  rw [abs_of_pos (show (0:ℚ) < 1000000 by norm_num)]
  rw [div_le_iff₀ (show (0:ℚ) < 1000000 by norm_num)]
  linarith

end Telemetry

namespace Telemetry

theorem ratLog2_spec (a : ℚ) (ha : 0 < a) :
    (2:ℚ) ^ ratLog2 a ≤ a ∧ a < (2:ℚ) ^ (ratLog2 a + 1) := by
  have hnum : 0 < a.num := Rat.num_pos.2 ha
  have hd : 0 < (a.den : ℚ) := by exact_mod_cast a.pos
  have hn0 : a.num.natAbs ≠ 0 := by omega
  have hden0 : a.den ≠ 0 := a.den_nz
  have l1 : 2 ^ Nat.log2 a.num.natAbs ≤ a.num.natAbs := Nat.log2_self_le hn0
  have l2 : a.num.natAbs < 2 ^ (Nat.log2 a.num.natAbs + 1) := Nat.lt_log2_self
  have l3 : 2 ^ Nat.log2 a.den ≤ a.den := Nat.log2_self_le hden0
  have l4 : a.den < 2 ^ (Nat.log2 a.den + 1) := Nat.lt_log2_self
  have hae : a = (a.num.natAbs : ℚ) / (a.den : ℚ) := by
    nth_rewrite 1 [← Rat.num_div_den a]
    congr 1
    rw [Int.cast_natAbs, abs_of_nonneg hnum.le]
  have q1 : (2:ℚ) ^ (Nat.log2 a.num.natAbs : ℤ) ≤ (a.num.natAbs : ℚ) := by
    rw [zpow_natCast]; exact_mod_cast l1
  have q2 : (a.num.natAbs : ℚ) < (2:ℚ) ^ ((Nat.log2 a.num.natAbs : ℤ) + 1) := by
    rw [show ((Nat.log2 a.num.natAbs : ℤ) + 1) = ((Nat.log2 a.num.natAbs + 1 : ℕ) : ℤ) from by push_cast; ring]
    rw [zpow_natCast]; exact_mod_cast l2
  have q3 : (2:ℚ) ^ (Nat.log2 a.den : ℤ) ≤ (a.den : ℚ) := by
    rw [zpow_natCast]; exact_mod_cast l3
  have q4 : (a.den : ℚ) < (2:ℚ) ^ ((Nat.log2 a.den : ℤ) + 1) := by
    rw [show ((Nat.log2 a.den : ℤ) + 1) = ((Nat.log2 a.den + 1 : ℕ) : ℤ) from by push_cast; ring]
    rw [zpow_natCast]; exact_mod_cast l4
  set ln : ℤ := (Nat.log2 a.num.natAbs : ℤ)
  set ld : ℤ := (Nat.log2 a.den : ℤ)
  have hA : a < (2:ℚ) ^ (ln - ld + 1) := by
    rw [hae, div_lt_iff₀ hd]
    calc (a.num.natAbs : ℚ) < (2:ℚ) ^ (ln + 1) := q2
    _ = (2:ℚ) ^ (ln - ld + 1) * (2:ℚ) ^ ld := by
        rw [← zpow_add₀ (two_ne_zero : (2:ℚ) ≠ 0)]
        congr 1
        ring
    _ ≤ (2:ℚ) ^ (ln - ld + 1) * (a.den : ℚ) := by
        apply mul_le_mul_of_nonneg_left q3 (by positivity)
  have hB : (2:ℚ) ^ (ln - ld - 1) < a := by
    rw [hae, lt_div_iff₀ hd]
    calc (2:ℚ) ^ (ln - ld - 1) * (a.den : ℚ) < (2:ℚ) ^ (ln - ld - 1) * (2:ℚ) ^ (ld + 1) := by
          apply mul_lt_mul_of_pos_left q4 (by positivity)
    _ = (2:ℚ) ^ ln := by
        rw [← zpow_add₀ (two_ne_zero : (2:ℚ) ≠ 0)]
        congr 1
        ring
    _ ≤ (a.num.natAbs : ℚ) := q1
  simp only [ratLog2]
  rw [mulPow2_eq, one_mul]
  split_ifs with h
  · exact ⟨h, hA⟩
  · constructor
    · exact hB.le
    · rw [show (ln - ld - 1 + 1) = ln - ld from by ring]
      exact not_le.1 h

end Telemetry

namespace Telemetry

theorem fl_err (q : ℚ) (h : |q| ≤ 1024) : |fl q - q| ≤ 1/1000 := by
  by_cases h0 : q = 0
  · subst h0; simp [fl]
  · have hapos : 0 < |q| := abs_pos.2 h0
    obtain ⟨hlo, hhi⟩ := ratLog2_spec |q| hapos
    have he10 : ratLog2 |q| ≤ 10 := by
      by_contra hcon
      push_neg at hcon
      have h1 : (2:ℚ) ^ (11:ℤ) ≤ (2:ℚ) ^ ratLog2 |q| :=
        zpow_le_zpow_right₀ one_le_two (by omega)
      have h2 : (2:ℚ) ^ (11:ℤ) ≤ |q| := le_trans h1 hlo
      norm_num at h2
      linarith
    set e := ratLog2 |q| with he
    set m := roundHalfEven (mulPow2 |q| (52 - e)) with hm
    have hrb : |(m:ℚ) - |q| * (2:ℚ)^(52-e)| ≤ 1/2 := by
      rw [hm, mulPow2_eq]
      exact abs_roundHalfEven_sub _
    have hpow : (0:ℚ) < (2:ℚ)^(e-52) := by positivity
    have hc : |q| * (2:ℚ)^(52-e) * (2:ℚ)^(e-52) = |q| := by
      rw [mul_assoc, ← zpow_add₀ (two_ne_zero : (2:ℚ) ≠ 0)]
      norm_num
    rw [fl, if_neg h0, mulPow2_eq]
    rw [← he, ← hm]
    have key : (if q < 0 then (-1:ℚ) else 1) * ((m:ℚ) * (2:ℚ)^(e-52)) - q
        = (if q < 0 then (-1:ℚ) else 1) * (((m:ℚ) - |q| * (2:ℚ)^(52-e)) * (2:ℚ)^(e-52)) := by
      split_ifs with hs
      · rw [abs_of_neg hs] at hc ⊢
        linear_combination -hc
      · rw [abs_of_nonneg (not_lt.1 hs)] at hc ⊢
        linear_combination hc
    rw [key, abs_mul, abs_mul]
    have habs1 : |(if q < 0 then (-1:ℚ) else 1)| = 1 := by
      split_ifs <;> norm_num
    rw [habs1, one_mul]
    rw [abs_of_pos hpow]
    have hb2 : (2:ℚ)^(e-52) ≤ (2:ℚ)^(-42 : ℤ) :=
      zpow_le_zpow_right₀ one_le_two (by omega)
    calc |(m:ℚ) - |q| * (2:ℚ)^(52-e)| * (2:ℚ)^(e-52)
        ≤ (1/2) * (2:ℚ)^(-42:ℤ) := by
          apply mul_le_mul hrb hb2 hpow.le (by norm_num)
    _ ≤ 1/1000 := by norm_num

end Telemetry

namespace Telemetry

theorem abs_fl_le (q : ℚ) (h : |q| ≤ 1024) : |fl q| ≤ |q| + 1/1000 := by
  have h2 := fl_err q h
  have h3 := abs_sub_abs_le_abs_sub (fl q) q
  linarith

theorem abs_round6_le (x : ℚ) : |round6 x| ≤ |x| + 1/1000000 := by
  have h2 := round6_err x
  have h3 := abs_sub_abs_le_abs_sub (round6 x) x
  linarith

theorem digitsVal_aux (l : List Char) (hd : ∀ c ∈ l, isAsciiDigit c = true) :
    ∀ a : ℕ, l.foldl (fun acc c => acc * 10 + (c.toNat - 48)) a < (a + 1) * 10 ^ l.length := by
  induction l with
  | nil => intro a; simp
  | cons c t ih =>
    intro a
    have hc : c.toNat - 48 ≤ 9 := by
      have h1 := hd c (List.mem_cons_self _ _)
      unfold isAsciiDigit at h1
      simp only [Bool.and_eq_true, decide_eq_true_eq] at h1
      omega
    simp only [List.foldl_cons, List.length_cons]
    calc t.foldl (fun acc c => acc * 10 + (c.toNat - 48)) (a * 10 + (c.toNat - 48))
        < (a * 10 + (c.toNat - 48) + 1) * 10 ^ t.length :=
          ih (fun x hx => hd x (List.mem_cons_of_mem c hx)) _
    _ ≤ ((a + 1) * 10) * 10 ^ t.length := by
        apply Nat.mul_le_mul_right
        omega
    _ = (a + 1) * 10 ^ (t.length + 1) := by ring

theorem digitsVal_lt (l : List Char) (hd : ∀ c ∈ l, isAsciiDigit c = true) :
    digitsVal l < 10 ^ l.length := by
  have := digitsVal_aux l hd 0
  simpa [digitsVal] using this

theorem takeWhile_digits_concat (l1 : List Char) (c : Char) (l2 : List Char)
    (h1 : ∀ x ∈ l1, isAsciiDigit x = true) (hc : isAsciiDigit c = false) :
    (l1 ++ c :: l2).takeWhile isAsciiDigit = l1 := by
  induction l1 with
  | nil => simp [List.takeWhile_cons, hc]
  | cons a t ih =>
    have ha := h1 a (List.mem_cons_self _ _)
    simp only [List.cons_append, List.takeWhile_cons, ha]
    simp only [if_true]
    rw [ih (fun x hx => h1 x (List.mem_cons_of_mem a hx))]

end Telemetry

namespace Telemetry

theorem numDotNum_decomp (ip fp : List Char)
    (hip : ∀ x ∈ ip, isAsciiDigit x = true) (hipne : ip ≠ [])
    (hfpne : fp ≠ []) (hfp : fp.all isAsciiDigit = true) :
    numDotNum (ip ++ '.' :: fp) = true := by
  have e1 : (ip ++ '.' :: fp).takeWhile isAsciiDigit = ip :=
    takeWhile_digits_concat ip '.' fp hip (by decide)
  unfold numDotNum
  simp only [e1, List.drop_left]
  simp [hipne, hfpne, hfp]

theorem digit_ne_newline (c : Char) (h : isAsciiDigit c = true) : c ≠ '\n' := by
  intro he
  subst he
  simp [isAsciiDigit] at h

theorem stripNl_of_decomp (s : String) (ip fp : List Char)
    (hv : s.toList = ip ++ '.' :: fp)
    (hfpne : fp ≠ []) (hfp : ∀ x ∈ fp, isAsciiDigit x = true) :
    stripNl s = s := by
  unfold stripNl
  rw [if_neg]
  rw [hv]
  rw [List.getLast?_append_of_ne_nil ip (show ('.' :: fp) ≠ [] from by simp)]
  intro hcon
  have h2 : '\n' ∈ '.' :: fp := List.mem_of_mem_getLast? (Option.mem_def.mpr hcon)
  rcases List.mem_cons.1 h2 with h3 | h3
  · exact absurd h3 (by decide)
  · exact absurd rfl (digit_ne_newline _ (hfp _ h3))

end Telemetry

namespace Telemetry

theorem convert_eval (v hemi : String) (ip fp : List Char)
    (hv : (stripNl v).toList = ip ++ '.' :: fp)
    (hip : ∀ c ∈ ip, isAsciiDigit c = true)
    (hfp : ∀ c ∈ fp, isAsciiDigit c = true)
    (hipne : ip ≠ []) (hfpne : fp ≠ [])
    (hl : ip.length = 4 ∨ ip.length = 5) :
    convert_dmm_to_decimal (some v) (some hemi) =
      some (pyRound6
        (if hemi = "S" ∨ hemi = "W" then
          -(fl ((digitsVal (ip.take (ip.length - 2)) : ℚ) +
              fl (fl ((digitsVal (ip.drop (ip.length - 2)) : ℚ) +
                   (digitsVal fp : ℚ) / (10:ℚ) ^ fp.length) / 60)))
         else
           fl ((digitsVal (ip.take (ip.length - 2)) : ℚ) +
              fl (fl ((digitsVal (ip.drop (ip.length - 2)) : ℚ) +
                   (digitsVal fp : ℚ) / (10:ℚ) ^ fp.length) / 60)))) := by
  have e1 : (stripNl v).toList.takeWhile isAsciiDigit = ip := by
    rw [hv]
    exact takeWhile_digits_concat ip '.' fp hip (by decide)
  have e2 : (stripNl v).toList.drop (ip.length + 1) = fp := by
    rw [hv]
    rw [show ip ++ '.' :: fp = (ip ++ ['.']) ++ fp from by simp]
    rw [show ip.length + 1 = (ip ++ ['.']).length from by simp]
    exact List.drop_left _ _
  have hmatch : pyMatchNumDotNum v = true := by
    unfold pyMatchNumDotNum
    rw [hv]
    exact numDotNum_decomp ip fp hip hipne hfpne (by rw [List.all_eq_true]; exact hfp)
  unfold convert_dmm_to_decimal
  simp only [hmatch, not_true, if_false, e1, e2]
  rcases hl with hl | hl
  · simp only [hl]
    norm_num
  · simp only [hl]
    norm_num

end Telemetry

namespace Telemetry

theorem dropWhile_eq_drop_len (p : Char → Bool) (l : List Char) :
    l.dropWhile p = l.drop (l.takeWhile p).length := by
  induction l with
  | nil => rfl
  | cons a t ih =>
    by_cases h : p a = true
    · simp [List.dropWhile_cons, List.takeWhile_cons, h, ih]
    · simp [List.dropWhile_cons, List.takeWhile_cons, h]

theorem takeWhile_drop_decomp (p : Char → Bool) (l : List Char) :
    l = l.takeWhile p ++ l.drop (l.takeWhile p).length := by
  rw [← dropWhile_eq_drop_len]
  exact (List.takeWhile_append_dropWhile p l).symm

theorem pyMatch_decomp (s : String) (h : pyMatchNumDotNum s = true) :
    ∃ ip fp, (stripNl s).toList = ip ++ '.' :: fp ∧
      (∀ c ∈ ip, isAsciiDigit c = true) ∧ (∀ c ∈ fp, isAsciiDigit c = true) ∧
      ip ≠ [] ∧ fp ≠ [] ∧ ip = (stripNl s).toList.takeWhile isAsciiDigit := by
  unfold pyMatchNumDotNum numDotNum at h
  rcases hd : (stripNl s).toList.drop
      (((stripNl s).toList.takeWhile isAsciiDigit).length) with _ | ⟨c, fp⟩
  · simp only [hd] at h
    exact absurd h (by simp)
  · simp only [hd, Bool.and_eq_true, decide_eq_true_eq, Bool.not_eq_eq_eq_not, Bool.not_true,
      List.all_eq_true] at h
    obtain ⟨⟨⟨hc, hipne⟩, hfpne⟩, hfp⟩ := h
    subst hc
    refine ⟨(stripNl s).toList.takeWhile isAsciiDigit, fp, ?_, ?_, ?_, ?_, ?_, rfl⟩
    · rw [← hd]
      exact takeWhile_drop_decomp _ _
    · intro c hcm
      exact List.mem_takeWhile_imp hcm
    · exact hfp
    · simpa using hipne
    · simpa using hfpne

end Telemetry

namespace Telemetry

theorem dmmShape_of_decomp (s : String) (ip fp : List Char)
    (hv : (stripNl s).toList = ip ++ '.' :: fp)
    (hip : ∀ c ∈ ip, isAsciiDigit c = true)
    (hfp : ∀ c ∈ fp, isAsciiDigit c = true)
    (hfpne : fp ≠ [])
    (hl : ip.length = 4 ∨ ip.length = 5) :
    dmmShape s = true := by
  have e1 : (ip ++ '.' :: fp).takeWhile isAsciiDigit = ip :=
    takeWhile_digits_concat ip '.' fp hip (by decide)
  unfold dmmShape
  simp only [hv, e1, List.drop_left]
  simp [hfpne, hl, List.all_eq_true.2 hfp]

theorem dmmShape_decomp (s : String) (h : dmmShape s = true) :
    ∃ ip fp, (stripNl s).toList = ip ++ '.' :: fp ∧
      (∀ c ∈ ip, isAsciiDigit c = true) ∧ (∀ c ∈ fp, isAsciiDigit c = true) ∧
      ip ≠ [] ∧ fp ≠ [] ∧ (ip.length = 4 ∨ ip.length = 5) ∧
      ip = (stripNl s).toList.takeWhile isAsciiDigit := by
  unfold dmmShape at h
  rcases hd : (stripNl s).toList.drop
      (((stripNl s).toList.takeWhile isAsciiDigit).length) with _ | ⟨c, fp⟩
  · simp only [hd] at h
    exact absurd h (by simp)
  · simp only [hd, Bool.and_eq_true, Bool.or_eq_true, decide_eq_true_eq,
      Bool.not_eq_eq_eq_not, Bool.not_true, List.all_eq_true] at h
    obtain ⟨⟨⟨hc, hlen⟩, hfpne⟩, hfp⟩ := h
    subst hc
    refine ⟨(stripNl s).toList.takeWhile isAsciiDigit, fp, ?_, ?_, ?_, ?_, ?_, hlen, rfl⟩
    · rw [← hd]
      exact takeWhile_drop_decomp _ _
    · intro c hcm
      exact List.mem_takeWhile_imp hcm
    · exact hfp
    · intro hcon
      rw [hcon] at hlen
      simp at hlen
    · simpa using hfpne

end Telemetry

namespace Telemetry

theorem convert_isSome_iff (v hemi : String) :
    (convert_dmm_to_decimal (some v) (some hemi)).isSome = true ↔ dmmShape v = true := by
  constructor
  · intro h
    by_cases hm : pyMatchNumDotNum v = true
    · obtain ⟨ip, fp, hv, hip, hfp, hipne, hfpne, hipeq⟩ := pyMatch_decomp v hm
      by_cases h4 : ip.length = 4
      · exact dmmShape_of_decomp v ip fp hv hip hfp hfpne (Or.inl h4)
      · by_cases h5 : ip.length = 5
        · exact dmmShape_of_decomp v ip fp hv hip hfp hfpne (Or.inr h5)
        · exfalso
          unfold convert_dmm_to_decimal at h
          rw [hipeq] at h4 h5
          simp only [hm, not_true, if_false, h4, h5, if_false] at h
          simp at h
    · exfalso
      unfold convert_dmm_to_decimal at h
      simp only [hm] at h
      simp at h
  · intro h
    obtain ⟨ip, fp, hv, hip, hfp, hipne, hfpne, hl, hipeq⟩ := dmmShape_decomp v h
    rw [convert_eval v hemi ip fp hv hip hfp hipne hfpne hl]
    rfl

theorem convert_abs_le (v hemi : String) (ip fp : List Char) (B : ℚ)
    (hv : (stripNl v).toList = ip ++ '.' :: fp)
    (hip : ∀ c ∈ ip, isAsciiDigit c = true)
    (hfp : ∀ c ∈ fp, isAsciiDigit c = true)
    (hipne : ip ≠ []) (hfpne : fp ≠ [])
    (hl : ip.length = 4 ∨ ip.length = 5)
    (hdeg : (digitsVal (ip.take (ip.length - 2)) : ℚ) ≤ B)
    (hB : B ≤ 999) :
    ∀ q, convert_dmm_to_decimal (some v) (some hemi) = some q → |q| ≤ B + 3 := by
  intro q hq
  rw [convert_eval v hemi ip fp hv hip hfp hipne hfpne hl] at hq
  rw [Option.some_inj] at hq
  have hB0 : (0:ℚ) ≤ B := le_trans (by positivity) hdeg
  -- minutes value bounds
  have hmm2 : (ip.drop (ip.length - 2)).length = 2 := by
    rw [List.length_drop]
    omega
  have hmmd : ∀ c ∈ ip.drop (ip.length - 2), isAsciiDigit c = true :=
    fun c hc => hip c (List.drop_subset _ _ hc)
  have hmmlt : digitsVal (ip.drop (ip.length - 2)) < 100 := by
    have := digitsVal_lt _ hmmd
    rw [hmm2] at this
    omega
  have hfrac : (digitsVal fp : ℚ) / (10:ℚ) ^ fp.length < 1 := by
    rw [div_lt_one (by positivity)]
    have := digitsVal_lt fp hfp
    calc (digitsVal fp : ℚ) < ((10 ^ fp.length : ℕ) : ℚ) := by exact_mod_cast this
    _ = (10:ℚ) ^ fp.length := by push_cast; ring
  have hfrac0 : (0:ℚ) ≤ (digitsVal fp : ℚ) / (10:ℚ) ^ fp.length := by positivity
  set minq : ℚ :=
    (digitsVal (ip.drop (ip.length - 2)) : ℚ) + (digitsVal fp : ℚ) / (10:ℚ) ^ fp.length
    with hminq
  have hmin0 : 0 ≤ minq := by positivity
  have hmin100 : minq < 100 := by
    have h1 : (digitsVal (ip.drop (ip.length - 2)) : ℚ) ≤ 99 := by exact_mod_cast (by omega : digitsVal (ip.drop (ip.length - 2)) ≤ 99)
    rw [hminq]
    linarith
  have habsmin : |minq| ≤ 100 := by
    rw [abs_of_nonneg hmin0]; linarith
  set M : ℚ := fl minq with hM
  have hMb : |M| ≤ 100 + 1/1000 := le_trans (abs_fl_le minq (by linarith)) (by linarith)
  have hTb : |M / 60| ≤ 2 := by
    rw [abs_div, abs_of_pos (by norm_num : (0:ℚ) < 60)]
    rw [div_le_iff₀ (by norm_num : (0:ℚ) < 60)]
    linarith
  set T : ℚ := fl (M / 60) with hT
  have hT2 : |T| ≤ 2 + 1/1000 := le_trans (abs_fl_le _ (by linarith)) (by linarith)
  have hdeg0 : (0:ℚ) ≤ (digitsVal (ip.take (ip.length - 2)) : ℚ) := by positivity
  have hD0 : |(digitsVal (ip.take (ip.length - 2)) : ℚ) + T| ≤ B + 2 + 1/1000 := by
    have h1 := abs_add (digitsVal (ip.take (ip.length - 2)) : ℚ) T
    rw [abs_of_nonneg hdeg0] at h1
    linarith
  set D : ℚ := fl ((digitsVal (ip.take (ip.length - 2)) : ℚ) + T) with hD
  have hDb : |D| ≤ B + 2 + 2/1000 :=
    le_trans (abs_fl_le _ (by linarith)) (by linarith)
  have hsD : |(if hemi = "S" ∨ hemi = "W" then -D else D)| = |D| := by
    split_ifs <;> simp
  set X : ℚ := if hemi = "S" ∨ hemi = "W" then -D else D with hX
  have hXb : |X| ≤ B + 2 + 2/1000 := by rw [hsD]; exact hDb
  have hr : |round6 X| ≤ B + 2 + 2/1000 + 1/1000000 :=
    le_trans (abs_round6_le X) (by linarith)
  have hq2 : |q| ≤ B + 2 + 2/1000 + 1/1000000 + 1/1000 := by
    rw [← hq]
    unfold pyRound6
    exact le_trans (abs_fl_le _ (by linarith)) (by linarith)
  linarith

end Telemetry

namespace Telemetry

theorem str_mk_append (l1 l2 : List Char) :
    String.mk l1 ++ String.mk l2 = String.mk (l1 ++ l2) := rfl

theorem asciiOrEscape_len (b : Nat) : (asciiOrEscape b).length ≤ 4 := by
  unfold asciiOrEscape
  split_ifs
  · have h1 : (String.mk [Char.ofNat b]).length = 1 := rfl
    omega
  · rw [String.length_append, String.length_append]
    have h1 : ("<" : String).length = 1 := rfl
    have h2 : (byteHexLower b).length = 2 := rfl
    have h3 : (">" : String).length = 1 := rfl
    omega

theorem gbkDecode2_len (b1 b2 : Nat) (s : String) (h : gbkDecode2 b1 b2 = some s) :
    s.length ≤ 2 := by
  unfold gbkDecode2 at h
  split_ifs at h <;> simp only [Option.some_inj] at h <;> try exact absurd h (by simp)
  all_goals (subst h; simp [String.length])

theorem mixedDecode_len (bs : List Nat) : (mixedDecode bs).length ≤ 4 * bs.length := by
  induction bs using mixedDecode.induct with
  | case1 => simp [mixedDecode, String.length]
  | case2 b =>
    have h2 := asciiOrEscape_len b
    simp only [mixedDecode, List.length_cons, List.length_nil]
    omega
  | case3 b1 b2 rest s heq ih =>
    simp only [mixedDecode, heq]
    rw [String.length_append]
    have h2 := gbkDecode2_len b1 b2 s heq
    simp only [List.length_cons]
    omega
  | case4 b1 b2 rest heq ih =>
    simp only [mixedDecode, heq]
    rw [String.length_append]
    have h2 := asciiOrEscape_len b1
    simp only [List.length_cons] at ih ⊢
    omega

theorem mixedDecode_ascii (bs : List Nat) (h : ∀ b ∈ bs, b ≤ 127) :
    mixedDecode bs = asciiStr bs := by
  induction bs using mixedDecode.induct with
  | case1 => rfl
  | case2 b =>
    have hb := h b (List.mem_cons_self _ _)
    simp only [mixedDecode, asciiOrEscape, asciiStr]
    rw [if_pos (by omega)]
    rfl
  | case3 b1 b2 rest s heq ih =>
    have hb1 := h b1 (List.mem_cons_self _ _)
    have hb2 := h b2 (List.mem_cons_of_mem _ (List.mem_cons_self _ _))
    have hs : s = String.mk [Char.ofNat b1, Char.ofNat b2] := by
      have h2 := heq
      unfold gbkDecode2 at h2
      rw [if_pos (by omega : b1 < 128), if_pos (by omega : b2 < 128)] at h2
      exact (Option.some_inj.1 h2).symm
    simp only [mixedDecode, heq]
    rw [ih (fun b hb => h b (List.mem_cons_of_mem _ (List.mem_cons_of_mem _ hb)))]
    rw [hs]
    unfold asciiStr
    rw [str_mk_append]
    rfl
  | case4 b1 b2 rest heq ih =>
    have hb1 := h b1 (List.mem_cons_self _ _)
    have hb2 := h b2 (List.mem_cons_of_mem _ (List.mem_cons_self _ _))
    exfalso
    have h2 := heq
    unfold gbkDecode2 at h2
    rw [if_pos (by omega : b1 < 128), if_pos (by omega : b2 < 128)] at h2
    simp at h2

end Telemetry

namespace Telemetry

theorem rhe_eq_low (q : ℚ) (f : ℤ) (h1 : (f:ℚ) ≤ q) (h2 : q < f + 1/2) :
    roundHalfEven q = f := by
  have hf : ⌊q⌋ = f := Int.floor_eq_iff.2 ⟨h1, by push_cast; linarith⟩
  unfold roundHalfEven
  rw [hf, if_pos (by push_cast; linarith)]

theorem rhe_eq_high (q : ℚ) (f : ℤ) (h1 : (f:ℚ) + 1/2 < q) (h2 : q < f + 1) :
    roundHalfEven q = f + 1 := by
  have hf : ⌊q⌋ = f := Int.floor_eq_iff.2 ⟨by push_cast; linarith, by push_cast; linarith⟩
  unfold roundHalfEven
  rw [hf, if_neg (by push_cast; linarith), if_pos (by push_cast; linarith)]

theorem ratLog2_eq_of (a : ℚ) (e : ℤ) (h0 : 0 < a)
    (h1 : (2:ℚ)^e ≤ a) (h2 : a < (2:ℚ)^(e+1)) : ratLog2 a = e := by
  obtain ⟨hlo, hhi⟩ := ratLog2_spec a h0
  by_contra hne
  rcases lt_or_gt_of_ne hne with hlt | hgt
  · have hle : (2:ℚ)^(ratLog2 a + 1) ≤ (2:ℚ)^e :=
      zpow_le_zpow_right₀ one_le_two (by omega)
    linarith
  · have hle : (2:ℚ)^(e+1) ≤ (2:ℚ)^(ratLog2 a) :=
      zpow_le_zpow_right₀ one_le_two (by omega)
    linarith

theorem fl_eq_pos (q : ℚ) (e m : ℤ) (h0 : 0 < q) (he : ratLog2 q = e)
    (hm : roundHalfEven (mulPow2 q (52 - e)) = m) :
    fl q = mulPow2 (m:ℚ) (e - 52) := by
  unfold fl
  rw [if_neg h0.ne', if_neg (not_lt.2 h0.le), abs_of_pos h0, he, hm, one_mul]

end Telemetry

namespace Telemetry

theorem mulPow2_eval (q : ℚ) (k : ℤ) (n : ℕ) (h : k.toNat = n) (h0 : 0 ≤ k) :
    mulPow2 q k = q * 2 ^ n := by
  rw [mulPow2, if_pos h0, h]

theorem mulPow2_eval_neg (q : ℚ) (k : ℤ) (n : ℕ) (h : (-k).toNat = n) (h0 : ¬ 0 ≤ k) :
    mulPow2 q k = q / 2 ^ n := by
  rw [mulPow2, if_neg h0, h]

theorem fl_576783 : fl ((576783:ℚ)/100000) = (1623499814921023:ℚ)/281474976710656 := by
  have he : ratLog2 ((576783:ℚ)/100000) = 2 :=
    ratLog2_eq_of _ (2) (by norm_num) (by norm_num) (by norm_num)
  have hm : roundHalfEven (mulPow2 ((576783:ℚ)/100000) (52 - 2)) = 6493999259684092 := by
    rw [mulPow2_eval _ _ 50 (by decide) (by decide)]
    rw [show ((576783:ℚ)/100000) * 2 ^ 50 = (649399925968409198592:ℚ)/100000 from by norm_num]
    exact rhe_eq_high _ 6493999259684091 (by norm_num) (by norm_num)
  rw [fl_eq_pos _ (2) 6493999259684092 (by norm_num) he hm]
  rw [mulPow2_eval_neg _ _ 50 (by decide) (by decide)]
  norm_num

theorem fl_T_step : fl ((1623499814921023:ℚ)/16888498602639360) = (6926932543663031:ℚ)/72057594037927936 := by
  have he : ratLog2 ((1623499814921023:ℚ)/16888498602639360) = -4 :=
    ratLog2_eq_of _ (-4) (by norm_num) (by norm_num) (by norm_num)
  have hm : roundHalfEven (mulPow2 ((1623499814921023:ℚ)/16888498602639360) (52 - (-4))) = 6926932543663031 := by
    rw [mulPow2_eval _ _ 56 (by decide) (by decide)]
    rw [show ((1623499814921023:ℚ)/16888498602639360) * 2 ^ 56 = (103903988154945472:ℚ)/15 from by norm_num]
    exact rhe_eq_low _ 6926932543663031 (by norm_num) (by norm_num)
  rw [fl_eq_pos _ (-4) 6926932543663031 (by norm_num) he hm]
  rw [mulPow2_eval_neg _ _ 56 (by decide) (by decide)]
  norm_num

theorem fl_D_step : fl ((2889230694060780471:ℚ)/72057594037927936) = (2821514349668731:ℚ)/70368744177664 := by
  have he : ratLog2 ((2889230694060780471:ℚ)/72057594037927936) = 5 :=
    ratLog2_eq_of _ (5) (by norm_num) (by norm_num) (by norm_num)
  have hm : roundHalfEven (mulPow2 ((2889230694060780471:ℚ)/72057594037927936) (52 - 5)) = 5643028699337462 := by
    rw [mulPow2_eval _ _ 47 (by decide) (by decide)]
    rw [show ((2889230694060780471:ℚ)/72057594037927936) * 2 ^ 47 = (2889230694060780471:ℚ)/512 from by norm_num]
    exact rhe_eq_high _ 5643028699337461 (by norm_num) (by norm_num)
  rw [fl_eq_pos _ (5) 5643028699337462 (by norm_num) he hm]
  rw [mulPow2_eval_neg _ _ 47 (by decide) (by decide)]
  norm_num

theorem fl_Q_step : fl ((40096131:ℚ)/1000000) = (2821514384853103:ℚ)/70368744177664 := by
  have he : ratLog2 ((40096131:ℚ)/1000000) = 5 :=
    ratLog2_eq_of _ (5) (by norm_num) (by norm_num) (by norm_num)
  have hm : roundHalfEven (mulPow2 ((40096131:ℚ)/1000000) (52 - 5)) = 5643028769706206 := by
    rw [mulPow2_eval _ _ 47 (by decide) (by decide)]
    rw [show ((40096131:ℚ)/1000000) * 2 ^ 47 = (88172324526659469312:ℚ)/15625 from by norm_num]
    exact rhe_eq_low _ 5643028769706206 (by norm_num) (by norm_num)
  rw [fl_eq_pos _ (5) 5643028769706206 (by norm_num) he hm]
  rw [mulPow2_eval_neg _ _ 47 (by decide) (by decide)]
  norm_num

theorem round6_D :
    round6 ((2821514349668731:ℚ)/70368744177664) = (40096131:ℚ)/1000000 := by
  unfold round6
  rw [show (2821514349668731:ℚ)/70368744177664 * 1000000
      = (44086161713573921875:ℚ)/1099511627776 from by norm_num]
  rw [rhe_eq_high _ 40096130 (by norm_num) (by norm_num)]
  norm_num

theorem convert_N_4005 :
    convert_dmm_to_decimal (some "4005.76783") (some "N") =
      some (fl ((40096131 : ℚ)/1000000)) := by
  rw [convert_eval "4005.76783" "N" ['4','0','0','5'] ['7','6','7','8','3']
      (by decide) (by decide) (by decide) (by decide) (by decide) (Or.inl (by decide))]
  rw [if_neg (by decide)]
  have hd1 : digitsVal (List.take (List.length ['4','0','0','5'] - 2) ['4','0','0','5']) = 40 := by
    decide
  have hd2 : digitsVal (List.drop (List.length ['4','0','0','5'] - 2) ['4','0','0','5']) = 5 := by
    decide
  have hd3 : digitsVal ['7','6','7','8','3'] = 76783 := by decide
  have hd4 : List.length ['7','6','7','8','3'] = 5 := by decide
  rw [hd1, hd2, hd3, hd4]
  congr 1
  rw [show ((5:ℕ):ℚ) + ((76783:ℕ):ℚ) / (10:ℚ)^(5:ℕ) = (576783:ℚ)/100000 from by
    push_cast; norm_num]
  rw [fl_576783]
  rw [show (1623499814921023:ℚ)/281474976710656 / 60
      = (1623499814921023:ℚ)/16888498602639360 from by norm_num]
  rw [fl_T_step]
  rw [show ((40:ℕ):ℚ) + (6926932543663031:ℚ)/72057594037927936
      = (2889230694060780471:ℚ)/72057594037927936 from by push_cast; norm_num]
  rw [fl_D_step]
  unfold pyRound6
  rw [round6_D]

end Telemetry

namespace Telemetry

theorem latShape_decomp (s : String) (h : latShapeDDMM s = true) :
    ∃ ip fp, s.toList = ip ++ '.' :: fp ∧
      (∀ c ∈ ip, isAsciiDigit c = true) ∧ (∀ c ∈ fp, isAsciiDigit c = true) ∧
      ip.length = 4 ∧ fp.length = 5 := by
  unfold latShapeDDMM at h
  rcases hd : s.toList.drop ((s.toList.takeWhile isAsciiDigit).length) with _ | ⟨c, fp⟩
  · simp only [hd] at h
    exact absurd h (by simp)
  · simp only [hd, Bool.and_eq_true, decide_eq_true_eq, List.all_eq_true] at h
    obtain ⟨⟨⟨hc, h4⟩, h5⟩, hfp⟩ := h
    subst hc
    refine ⟨s.toList.takeWhile isAsciiDigit, fp, ?_, ?_, hfp, h4, h5⟩
    · rw [← hd]
      exact takeWhile_drop_decomp _ _
    · intro c hc
      exact List.mem_takeWhile_imp hc

theorem lonShape_decomp (s : String) (h : lonShapeDDDMM s = true) :
    ∃ ip fp, s.toList = ip ++ '.' :: fp ∧
      (∀ c ∈ ip, isAsciiDigit c = true) ∧ (∀ c ∈ fp, isAsciiDigit c = true) ∧
      ip.length = 5 ∧ fp.length = 5 := by
  unfold lonShapeDDDMM at h
  rcases hd : s.toList.drop ((s.toList.takeWhile isAsciiDigit).length) with _ | ⟨c, fp⟩
  · simp only [hd] at h
    exact absurd h (by simp)
  · simp only [hd, Bool.and_eq_true, decide_eq_true_eq, List.all_eq_true] at h
    obtain ⟨⟨⟨hc, h4⟩, h5⟩, hfp⟩ := h
    subst hc
    refine ⟨s.toList.takeWhile isAsciiDigit, fp, ?_, ?_, hfp, h4, h5⟩
    · rw [← hd]
      exact takeWhile_drop_decomp _ _
    · intro c hc
      exact List.mem_takeWhile_imp hc

theorem parse_cases_all (s : String) :
    ((parse_hex_content s).errorDetail.isSome ∧ (parse_hex_content s).statusText.isSome ∧
     (parse_hex_content s).statusClass = some "error-text") ∨
    ((parse_hex_content s).errorDetail = none ∧
     (∃ w, (parse_hex_content s).warningDetail = some w ∧
       (parse_hex_content s).statusText = some ("解析警告: " ++ pyStrip w)) ∧
     (parse_hex_content s).statusClass = some "error-text") ∨
    ((parse_hex_content s).errorDetail = none ∧ (parse_hex_content s).warningDetail = none ∧
     (parse_hex_content s).statusText = some "解析成功" ∧
     (parse_hex_content s).statusClass = some "success-text") := by
  rcases hu : unhexlify s.toList with _ | bd
  · left
    by_cases h1 : s.toList.all pyIsHexDigit = true
    · have he : parse_hex_content s =
        { rawHexContent := s, statusText := some "十六进制解码错误",
          statusClass := some "error-text",
          errorDetail := some "十六进制字符串解码失败: Odd-length string" } := by
        simp only [parse_hex_content, h1, not_true, if_false, hu]
      rw [he]
      exact ⟨rfl, rfl, rfl⟩
    · have he : parse_hex_content s =
        { rawHexContent := s, statusText := some "十六进制字符串格式错误",
          statusClass := some "error-text",
          errorDetail := some "输入不是有效的十六进制字符串。" } := by
        rw [parse_hex_content, if_pos h1]
      rw [he]
      exact ⟨rfl, rfl, rfl⟩
  · rw [parse_hex_content_of_unhex s bd hu]
    rcases parseHexBytes_cases s bd with h | h | h
    · exact Or.inl ⟨h.1, by rw [h.2.1]; exact rfl, h.2.2⟩
    · exact Or.inr (Or.inl h)
    · exact Or.inr (Or.inr h)

theorem formatted_statusClass (pd : ParsedData) :
    (format_parsed_data_for_display pd).statusClassF = pd.statusClass.getD "" := by
  unfold format_parsed_data_for_display
  split_ifs <;> rfl

theorem formatted_decimals_of_success (pd : ParsedData)
    (h : pd.statusClass = some "success-text") :
    (format_parsed_data_for_display pd).decimal_latitude =
      convert_dmm_to_decimal pd.latRaw pd.latHemi ∧
    (format_parsed_data_for_display pd).decimal_longitude =
      convert_dmm_to_decimal pd.lonRaw pd.lonHemi := by
  unfold format_parsed_data_for_display
  rw [if_neg (by rw [h]; simp)]
  exact ⟨rfl, rfl⟩

end Telemetry

namespace Telemetry

theorem fl_9999999 : fl ((9999999:ℚ)/100000) = (3518436857039479:ℚ)/35184372088832 := by
  have he : ratLog2 ((9999999:ℚ)/100000) = 6 :=
    ratLog2_eq_of _ (6) (by norm_num) (by norm_num) (by norm_num)
  have hm : roundHalfEven (mulPow2 ((9999999:ℚ)/100000) (52 - 6)) = 7036873714078958 := by
    rw [mulPow2_eval _ _ 46 (by decide) (by decide)]
    rw [show ((9999999:ℚ)/100000) * 2 ^ 46 = (21990230356496744448:ℚ)/3125 from by norm_num]
    exact rhe_eq_low _ 7036873714078958 (by norm_num) (by norm_num)
  rw [fl_eq_pos _ (6) 7036873714078958 (by norm_num) he hm]
  rw [mulPow2_eval_neg _ _ 46 (by decide) (by decide)]
  norm_num

theorem fl_T2_step : fl ((3518436857039479:ℚ)/2111062325329920) = (7505998628350889:ℚ)/4503599627370496 := by
  have he : ratLog2 ((3518436857039479:ℚ)/2111062325329920) = 0 :=
    ratLog2_eq_of _ (0) (by norm_num) (by norm_num) (by norm_num)
  have hm : roundHalfEven (mulPow2 ((3518436857039479:ℚ)/2111062325329920) (52 - 0)) = 7505998628350889 := by
    rw [mulPow2_eval _ _ 52 (by decide) (by decide)]
    rw [show ((3518436857039479:ℚ)/2111062325329920) * 2 ^ 52 = (112589979425263328:ℚ)/15 from by norm_num]
    exact rhe_eq_high _ 7505998628350888 (by norm_num) (by norm_num)
  rw [fl_eq_pos _ (0) 7505998628350889 (by norm_num) he hm]
  rw [mulPow2_eval_neg _ _ 52 (by decide) (by decide)]
  norm_num

theorem fl_D2_step : fl ((453362361738029993:ℚ)/4503599627370496) = (7083786902156719:ℚ)/70368744177664 := by
  have he : ratLog2 ((453362361738029993:ℚ)/4503599627370496) = 6 :=
    ratLog2_eq_of _ (6) (by norm_num) (by norm_num) (by norm_num)
  have hm : roundHalfEven (mulPow2 ((453362361738029993:ℚ)/4503599627370496) (52 - 6)) = 7083786902156719 := by
    rw [mulPow2_eval _ _ 46 (by decide) (by decide)]
    rw [show ((453362361738029993:ℚ)/4503599627370496) * 2 ^ 46 = (453362361738029993:ℚ)/64 from by norm_num]
    exact rhe_eq_high _ 7083786902156718 (by norm_num) (by norm_num)
  rw [fl_eq_pos _ (6) 7083786902156719 (by norm_num) he hm]
  rw [mulPow2_eval_neg _ _ 46 (by decide) (by decide)]
  norm_num

theorem fl_Q2_step : fl ((100666667:ℚ)/1000000) = (7083786937341091:ℚ)/70368744177664 := by
  have he : ratLog2 ((100666667:ℚ)/1000000) = 6 :=
    ratLog2_eq_of _ (6) (by norm_num) (by norm_num) (by norm_num)
  have hm : roundHalfEven (mulPow2 ((100666667:ℚ)/1000000) (52 - 6)) = 7083786937341091 := by
    rw [mulPow2_eval _ _ 46 (by decide) (by decide)]
    rw [show ((100666667:ℚ)/1000000) * 2 ^ 46 = (110684170895954542592:ℚ)/15625 from by norm_num]
    exact rhe_eq_high _ 7083786937341090 (by norm_num) (by norm_num)
  rw [fl_eq_pos _ (6) 7083786937341091 (by norm_num) he hm]
  rw [mulPow2_eval_neg _ _ 46 (by decide) (by decide)]
  norm_num

theorem round6_D2 :
    round6 ((7083786902156719:ℚ)/70368744177664) = (100666667:ℚ)/1000000 := by
  unfold round6
  rw [show (7083786902156719:ℚ)/70368744177664 * 1000000
      = (110684170346198734375:ℚ)/1099511627776 from by norm_num]
  rw [rhe_eq_high _ 100666666 (by norm_num) (by norm_num)]
  norm_num

theorem convert_N_9999 :
    convert_dmm_to_decimal (some "9999.99999") (some "N") =
      some (fl ((100666667 : ℚ)/1000000)) := by
  rw [convert_eval "9999.99999" "N" ['9','9','9','9'] ['9','9','9','9','9']
      (by decide) (by decide) (by decide) (by decide) (by decide) (Or.inl (by decide))]
  rw [if_neg (by decide)]
  have hd1 : digitsVal (List.take (List.length ['9','9','9','9'] - 2) ['9','9','9','9']) = 99 := by
    decide
  have hd2 : digitsVal (List.drop (List.length ['9','9','9','9'] - 2) ['9','9','9','9']) = 99 := by
    decide
  have hd3 : digitsVal ['9','9','9','9','9'] = 99999 := by decide
  have hd4 : List.length ['9','9','9','9','9'] = 5 := by decide
  rw [hd1, hd2, hd3, hd4]
  congr 1
  rw [show ((99:ℕ):ℚ) + ((99999:ℕ):ℚ) / (10:ℚ)^(5:ℕ) = (9999999:ℚ)/100000 from by
    push_cast; norm_num]
  rw [fl_9999999]
  rw [show (3518436857039479:ℚ)/35184372088832 / 60
      = (3518436857039479:ℚ)/2111062325329920 from by norm_num]
  rw [fl_T2_step]
  rw [show ((99:ℕ):ℚ) + (7505998628350889:ℚ)/4503599627370496
      = (453362361738029993:ℚ)/4503599627370496 from by push_cast; norm_num]
  rw [fl_D2_step]
  unfold pyRound6
  rw [round6_D2]

theorem convert_N_9999_val :
    convert_dmm_to_decimal (some "9999.99999") (some "N") =
      some ((7083786937341091 : ℚ)/70368744177664) := by
  rw [convert_N_9999, fl_Q2_step]

end Telemetry

namespace Telemetry

theorem str_empty_append (s : String) : "" ++ s = s := by
  cases s
  rfl

theorem str_append_assoc (a b c : String) : a ++ b ++ c = a ++ (b ++ c) :=
  String.append_assoc a b c

theorem str_append_empty (s : String) : s ++ "" = s :=
  String.append_empty s

theorem appendWarn_prefix_ex (w : Option String) (m p : String)
    (h : ∃ t, w = some (p ++ t)) : ∃ t, appendWarn w m = some (p ++ t) := by
  obtain ⟨t, ht⟩ := h
  exact ⟨t ++ m, by rw [ht]; simp [appendWarn, str_append_assoc]⟩

theorem sliceWarnOf_prefix (bd : List Nat) (off len : Nat) (w : Option String)
    (m p : String) (h : ∃ t, w = some (p ++ t)) :
    ∃ t, sliceWarnOf bd off len w m = some (p ++ t) := by
  unfold sliceWarnOf
  split_ifs
  · exact h
  · exact appendWarn_prefix_ex w m p h

theorem sepWarn_prefix (b : Nat) (w : Option String) (p : String)
    (h : ∃ t, w = some (p ++ t)) :
    ∃ t, (if b ≠ 0x2D then appendWarn w " 隔离符不是 \x27-\x27 (0x2D)。" else w) =
      some (p ++ t) := by
  split_ifs
  · exact appendWarn_prefix_ex w _ p h
  · exact h

/-- C1: For every input string whatsoever, `parse_hex_content` (a total
function faithfully modelling every branch of the Python parser,
including its exception handlers) returns a result record carrying a
status text, whose status class is either the error/warning class or
the success class, and the downstream display formatter — likewise a
total model — classifies the formatted record into one of the same two
classes. -/
theorem claim1_total_classified (s : String) :
    (parse_hex_content s).statusText.isSome = true ∧
    ((parse_hex_content s).statusClass = some "error-text" ∨
     (parse_hex_content s).statusClass = some "success-text") ∧
    ((format_parsed_data_for_display (parse_hex_content s)).statusClassF = "error-text" ∨
     (format_parsed_data_for_display (parse_hex_content s)).statusClassF = "success-text") := by
  rcases parse_cases_all s with h | h | h
  · refine ⟨h.2.1, Or.inl h.2.2, ?_⟩
    rw [formatted_statusClass, h.2.2]
    exact Or.inl rfl
  · obtain ⟨w, hw, hst⟩ := h.2.1
    refine ⟨by rw [hst]; rfl, Or.inl h.2.2, ?_⟩
    rw [formatted_statusClass, h.2.2]
    exact Or.inl rfl
  · refine ⟨by rw [h.2.2.1]; rfl, Or.inr h.2.2.2, ?_⟩
    rw [formatted_statusClass, h.2.2.2]
    exact Or.inr rfl

/-- C2: whenever a hex string decodes to a buffer of fewer than 41
bytes, parsing is fatal: the status is 解析错误 with the error class,
the error detail names exactly the first wire-order field (marker,
timestamp, latitude hemisphere, latitude, longitude hemisphere,
longitude, altitude, separator) that could not be fully extracted, and
no field at or after the truncation point is populated. -/
theorem claim2_truncation_fatal (s : String) (bd : List Nat)
    (hdec : unhexlify s.toList = some bd) (hlen : bd.length < 41) :
    (parse_hex_content s).statusText = some "解析错误" ∧
    (parse_hex_content s).statusClass = some "error-text" ∧
    (parse_hex_content s).errorDetail = some (insufficientDetail bd.length) ∧
    unpopulatedFrom bd.length (parse_hex_content s) := by
  rw [parse_hex_content_of_unhex s bd hdec]
  exact parseHexBytes_trunc s bd hlen

theorem claim2_witness :
    unhexlify ("a4".toList) = some [164] ∧ [(164 : Nat)].length < 41 ∧
    (parse_hex_content "a4").errorDetail = some (insufficientDetail [(164 : Nat)].length) :=
  ⟨by decide, by decide, (claim2_truncation_fatal "a4" [164] (by decide) (by decide)).2.2.1⟩

/-- C3 (amended): for a buffer of exactly 41-plus-trailing bytes with
marker 0xA4, separator 0x2D, hemisphere bytes restricted to N/S and
E/W, and — additionally to the original claim — every fixed field
ASCII-decodable, parsing succeeds with no warning; and whenever the
raw latitude (resp. longitude) string matches its DDMM.MMMMM
(resp. DDDMM.MMMMM) pattern, the displayed decimal coordinate lies in
[-102, 102] (resp. [-1002, 1002]); the tighter original bounds ±90 and
±180 are refuted by the separate counterexample. -/
theorem claim3_clean_success_bounds (s : String)
    (ts latV lonV alt rest : List Nat) (lh gh : Nat)
    (hdec : unhexlify s.toList =
      some ([0xA4] ++ ts ++ [lh] ++ latV ++ [gh] ++ lonV ++ alt ++ [0x2D] ++ rest))
    (hts : ts.length = 8) (hlat : latV.length = 10) (hlon : lonV.length = 11)
    (halt : alt.length = 8)
    (ats : ts.all (· < 128) = true) (alat : latV.all (· < 128) = true)
    (alon : lonV.all (· < 128) = true) (aalt : alt.all (· < 128) = true)
    (hlh : lh = 78 ∨ lh = 83) (hgh : gh = 69 ∨ gh = 87) :
    (parse_hex_content s).statusText = some "解析成功" ∧
    (parse_hex_content s).statusClass = some "success-text" ∧
    (parse_hex_content s).warningDetail = none ∧
    (∀ q : ℚ, latShapeDDMM (asciiStr latV) = true →
      (format_parsed_data_for_display (parse_hex_content s)).decimal_latitude = some q →
      -102 ≤ q ∧ q ≤ 102) ∧
    (∀ q : ℚ, lonShapeDDDMM (asciiStr lonV) = true →
      (format_parsed_data_for_display (parse_hex_content s)).decimal_longitude = some q →
      -1002 ≤ q ∧ q ≤ 1002) := by
  have hrec := parseHexBytes_clean s ts latV lonV alt rest lh gh hts hlat hlon halt
    ats alat alon aalt (by rcases hlh with h | h <;> omega) (by rcases hgh with h | h <;> omega)
  have hp : parse_hex_content s =
      parseHexBytes s ([0xA4] ++ ts ++ [lh] ++ latV ++ [gh] ++ lonV ++ alt ++ [0x2D] ++ rest) :=
    parse_hex_content_of_unhex s _ hdec
  rw [hrec] at hp
  refine ⟨by rw [hp], by rw [hp], by rw [hp], ?_, ?_⟩
  · intro q hshape hq
    have hf := (formatted_decimals_of_success (parse_hex_content s) (by rw [hp])).1
    rw [hf, hp] at hq
    have hq2 : convert_dmm_to_decimal (some (asciiStr latV)) (some (asciiStr [lh])) = some q := hq
    obtain ⟨ip, fp, hvdec, hip, hfp, h4, h5⟩ := latShape_decomp _ hshape
    have hipne : ip ≠ [] := by
      intro hc
      rw [hc] at h4
      simp at h4
    have hfpne : fp ≠ [] := by
      intro hc
      rw [hc] at h5
      simp at h5
    have hstrip : stripNl (asciiStr latV) = asciiStr latV :=
      stripNl_of_decomp _ ip fp hvdec hfpne hfp
    have hlen2 : (ip.take (ip.length - 2)).length = 2 := by
      rw [List.length_take, h4]
      decide
    have hdl := digitsVal_lt (ip.take (ip.length - 2))
      (fun c hc => hip c (List.take_subset _ _ hc))
    rw [hlen2] at hdl
    norm_num at hdl
    have hdegB : (digitsVal (ip.take (ip.length - 2)) : ℚ) ≤ 99 := by
      exact_mod_cast Nat.lt_succ_iff.mp hdl
    have habs := convert_abs_le (asciiStr latV) (asciiStr [lh]) ip fp 99
      (by rw [hstrip]; exact hvdec) hip hfp hipne hfpne (Or.inl h4) hdegB (by norm_num) q hq2
    rw [abs_le] at habs
    exact ⟨by linarith [habs.1], by linarith [habs.2]⟩
  · intro q hshape hq
    have hf := (formatted_decimals_of_success (parse_hex_content s) (by rw [hp])).2
    rw [hf, hp] at hq
    have hq2 : convert_dmm_to_decimal (some (asciiStr lonV)) (some (asciiStr [gh])) = some q := hq
    obtain ⟨ip, fp, hvdec, hip, hfp, h4, h5⟩ := lonShape_decomp _ hshape
    have hipne : ip ≠ [] := by
      intro hc
      rw [hc] at h4
      simp at h4
    have hfpne : fp ≠ [] := by
      intro hc
      rw [hc] at h5
      simp at h5
    have hstrip : stripNl (asciiStr lonV) = asciiStr lonV :=
      stripNl_of_decomp _ ip fp hvdec hfpne hfp
    have hlen2 : (ip.take (ip.length - 2)).length = 3 := by
      rw [List.length_take, h4]
      decide
    have hdl := digitsVal_lt (ip.take (ip.length - 2))
      (fun c hc => hip c (List.take_subset _ _ hc))
    rw [hlen2] at hdl
    norm_num at hdl
    have hdegB : (digitsVal (ip.take (ip.length - 2)) : ℚ) ≤ 999 := by
      exact_mod_cast Nat.lt_succ_iff.mp hdl
    have habs := convert_abs_le (asciiStr lonV) (asciiStr [gh]) ip fp 999
      (by rw [hstrip]; exact hvdec) hip hfp hipne hfpne (Or.inr h4) hdegB (by norm_num) q hq2
    rw [abs_le] at habs
    exact ⟨by linarith [habs.1], by linarith [habs.2]⟩

theorem claim3_cex :
    ((parse_hex_content "A4FFFFFFFFFFFFFFFF4E343030352E37363738334531313632392E31323334352B30303039392E352D").dataId = some "0xA4" ∧
     (parse_hex_content "A4FFFFFFFFFFFFFFFF4E343030352E37363738334531313632392E31323334352B30303039392E352D").sepByte = some "0x2D" ∧
     (parse_hex_content "A4FFFFFFFFFFFFFFFF4E343030352E37363738334531313632392E31323334352B30303039392E352D").latHemi = some "N" ∧
     (parse_hex_content "A4FFFFFFFFFFFFFFFF4E343030352E37363738334531313632392E31323334352B30303039392E352D").lonHemi = some "E" ∧
     (parse_hex_content "A4FFFFFFFFFFFFFFFF4E343030352E37363738334531313632392E31323334352B30303039392E352D").statusText = some "解析警告: 定位时间解码为 ASCII 失败。" ∧
     (parse_hex_content "A4FFFFFFFFFFFFFFFF4E343030352E37363738334531313632392E31323334352B30303039392E352D").warningDetail ≠ none) ∧
    ((parse_hex_content "A431323A33343A35364E393939392E39393939394531313632392E31323334352B30303039392E352D").statusText = some "解析成功" ∧
     (parse_hex_content "A431323A33343A35364E393939392E39393939394531313632392E31323334352B30303039392E352D").latRaw = some "9999.99999" ∧
     latShapeDDMM "9999.99999" = true ∧
     (format_parsed_data_for_display
       (parse_hex_content "A431323A33343A35364E393939392E39393939394531313632392E31323334352B30303039392E352D")).decimal_latitude =
       some ((7083786937341091 : ℚ)/70368744177664) ∧
     (90 : ℚ) < (7083786937341091 : ℚ)/70368744177664) := by
  refine ⟨⟨by decide, by decide, by decide, by decide, by decide, by decide⟩,
    by decide, by decide, by decide, ?_, by norm_num⟩
  have h3 : (parse_hex_content "A431323A33343A35364E393939392E39393939394531313632392E31323334352B30303039392E352D").statusClass = some "success-text" := by
    decide
  have h1 : (parse_hex_content "A431323A33343A35364E393939392E39393939394531313632392E31323334352B30303039392E352D").latRaw = some "9999.99999" := by
    decide
  have h2 : (parse_hex_content "A431323A33343A35364E393939392E39393939394531313632392E31323334352B30303039392E352D").latHemi = some "N" := by
    decide
  have h4 := (formatted_decimals_of_success _ h3).1
  rw [h1, h2, convert_N_9999_val] at h4
  exact h4

theorem claim3_witness :
    unhexlify ("A431323A33343A35364E343030352E37363738334531313632392E31323334352B30303039392E352D".toList) =
      some ([0xA4] ++ [0x31, 0x32, 0x3A, 0x33, 0x34, 0x3A, 0x35, 0x36] ++ [0x4E] ++
        [0x34, 0x30, 0x30, 0x35, 0x2E, 0x37, 0x36, 0x37, 0x38, 0x33] ++ [0x45] ++
        [0x31, 0x31, 0x36, 0x32, 0x39, 0x2E, 0x31, 0x32, 0x33, 0x34, 0x35] ++
        [0x2B, 0x30, 0x30, 0x30, 0x39, 0x39, 0x2E, 0x35] ++ [0x2D] ++ []) ∧
    (parse_hex_content "A431323A33343A35364E343030352E37363738334531313632392E31323334352B30303039392E352D").statusText =
      some "解析成功" :=
  ⟨by decide,
   (claim3_clean_success_bounds
     "A431323A33343A35364E343030352E37363738334531313632392E31323334352B30303039392E352D"
     [0x31, 0x32, 0x3A, 0x33, 0x34, 0x3A, 0x35, 0x36]
     [0x34, 0x30, 0x30, 0x35, 0x2E, 0x37, 0x36, 0x37, 0x38, 0x33]
     [0x31, 0x31, 0x36, 0x32, 0x39, 0x2E, 0x31, 0x32, 0x33, 0x34, 0x35]
     [0x2B, 0x30, 0x30, 0x30, 0x39, 0x39, 0x2E, 0x35] [] 0x4E 0x45
     (by decide) (by decide) (by decide) (by decide) (by decide) (by decide) (by decide)
     (by decide) (by decide) (Or.inl (by decide)) (Or.inl (by decide))).1⟩

/-- C4 (amended): the mixed-encoding trailing-text decoder is a total
structurally recursive single pass that never fails, and the emitted
character count is at most 4 times the number of input bytes (an
escaped byte emits the four characters of a bracketed two-hex-digit
marker); the original bound of at most one character per input byte is
refuted by the counterexample. -/
theorem claim4_decoder_bounded (bs : List Nat) :
    (mixedDecode bs).length ≤ 4 * bs.length :=
  mixedDecode_len bs

theorem claim4_cex :
    mixedDecode [255] = "<ff>" ∧
    ¬ (mixedDecode [255]).length ≤ ([255] : List Nat).length := by
  decide

/-- C5 (amended): on ANY decoded buffer that is non-empty and long
enough for every fixed field (at least 41 bytes) whose first byte is
not the expected marker 0xA4 — no other cleanliness assumed — parsing
records the marker warning 数据标识不是 0xA4 as the first entry of the
warning detail and continues to the end: no fatal error is recorded,
the status renders the accumulated warnings at the error-severity
class, the raw marker byte is kept as the data id, every fixed field
is populated with its decoded (or hex-escaped) text, and the trailing
custom data is still decoded; the original claim that an EMPTY buffer
is likewise non-fatal is refuted by the counterexample — the empty
buffer takes the fatal insufficient-length path before the marker is
ever compared. -/
theorem claim5_marker_warning_nonfatal (s : String) (bd : List Nat)
    (hdec : unhexlify s.toList = some bd)
    (h41 : ¬ bd.length < 41) (hmk : bd.getD 0 0 ≠ 0xA4) :
    (parse_hex_content s).errorDetail = none ∧
    (∃ t, (parse_hex_content s).warningDetail = some (" 数据标识不是 0xA4。" ++ t) ∧
      (parse_hex_content s).statusText =
        some ("解析警告: " ++ pyStrip (" 数据标识不是 0xA4。" ++ t))) ∧
    (parse_hex_content s).statusClass = some "error-text" ∧
    (parse_hex_content s).dataId = some (pyHexByteUpper (bd.getD 0 0)) ∧
    (parse_hex_content s).locTime = some (sliceStrOf bd 1 8) ∧
    (parse_hex_content s).latHemi = some (sliceStrOf bd 9 1) ∧
    (parse_hex_content s).latRaw = some (sliceStrOf bd 10 10) ∧
    (parse_hex_content s).lonHemi = some (sliceStrOf bd 20 1) ∧
    (parse_hex_content s).lonRaw = some (sliceStrOf bd 21 11) ∧
    (parse_hex_content s).altitudeRaw = some (sliceStrOf bd 32 8) ∧
    (parse_hex_content s).sepByte = some (pyHexByteUpper (bd.getD 40 0)) ∧
    (parse_hex_content s).customData = some (mixedDecode (bd.drop 41)) := by
  rw [parse_hex_content_of_unhex s bd hdec]
  have k1 : ¬ bd.length < 1 := by omega
  have s1 : ∀ w m, sliceField bd 1 8 w m = some (sliceStrOf bd 1 8, sliceWarnOf bd 1 8 w m) :=
    fun w m => sliceField_eq_some _ _ _ _ _ (by omega)
  have s2 : ∀ w m, sliceField bd 9 1 w m = some (sliceStrOf bd 9 1, sliceWarnOf bd 9 1 w m) :=
    fun w m => sliceField_eq_some _ _ _ _ _ (by omega)
  have s3 : ∀ w m, sliceField bd 10 10 w m = some (sliceStrOf bd 10 10, sliceWarnOf bd 10 10 w m) :=
    fun w m => sliceField_eq_some _ _ _ _ _ (by omega)
  have s4 : ∀ w m, sliceField bd 20 1 w m = some (sliceStrOf bd 20 1, sliceWarnOf bd 20 1 w m) :=
    fun w m => sliceField_eq_some _ _ _ _ _ (by omega)
  have s5 : ∀ w m, sliceField bd 21 11 w m = some (sliceStrOf bd 21 11, sliceWarnOf bd 21 11 w m) :=
    fun w m => sliceField_eq_some _ _ _ _ _ (by omega)
  have s6 : ∀ w m, sliceField bd 32 8 w m = some (sliceStrOf bd 32 8, sliceWarnOf bd 32 8 w m) :=
    fun w m => sliceField_eq_some _ _ _ _ _ (by omega)
  have hmarker : ∃ t, (if bd.getD 0 0 ≠ 0xA4 then appendWarn none " 数据标识不是 0xA4。" else none) =
      some (" 数据标识不是 0xA4。" ++ t) := by
    rw [if_pos hmk]
    exact ⟨"", by simp [appendWarn, str_empty_append, str_append_empty]⟩
  have hw2 := sliceWarnOf_prefix bd 1 8 _ " 定位时间解码为 ASCII 失败。" _ hmarker
  have hw3 := sliceWarnOf_prefix bd 9 1 _ " 纬度半球解码为 ASCII 失败。" _ hw2
  have hw4 := sliceWarnOf_prefix bd 10 10 _ " 原始纬度值解码为 ASCII 失败。" _ hw3
  have hw5 := sliceWarnOf_prefix bd 20 1 _ " 经度半球解码为 ASCII 失败。" _ hw4
  have hw6 := sliceWarnOf_prefix bd 21 11 _ " 原始经度值解码为 ASCII 失败。" _ hw5
  have hw7 := sliceWarnOf_prefix bd 32 8 _ " 高程解码为 ASCII 失败。" _ hw6
  have hch := sepWarn_prefix (bd.getD 40 0) _ _ hw7
  obtain ⟨t, ht⟩ := hch
  simp only [parseHexBytes, if_neg k1, s1, s2, s3, s4, s5, s6, if_neg h41]
  rw [ht]
  exact ⟨rfl, ⟨t, rfl, rfl⟩, rfl, rfl, rfl, rfl, rfl, rfl, rfl, rfl, rfl, rfl⟩

theorem claim5_cex :
    unhexlify ("".toList) = some [] ∧
    (parse_hex_content "").errorDetail = some "数据长度不足，无法解析数据标识。" ∧
    (parse_hex_content "").statusText = some "解析错误" ∧
    (parse_hex_content "").statusClass = some "error-text" ∧
    (parse_hex_content "").warningDetail = none := by
  decide

theorem claim5_witness :
    unhexlify ("0000000000000000000000000000000000000000000000000000000000000000000000000000000000".toList) = some (List.replicate 41 0) ∧
    ¬ (List.replicate 41 (0 : Nat)).length < 41 ∧
    (List.replicate 41 (0 : Nat)).getD 0 0 ≠ 0xA4 ∧
    (parse_hex_content "0000000000000000000000000000000000000000000000000000000000000000000000000000000000").errorDetail = none :=
  ⟨by decide, by decide, by decide,
   (claim5_marker_warning_nonfatal "0000000000000000000000000000000000000000000000000000000000000000000000000000000000"
     (List.replicate 41 0) (by decide) (by decide) (by decide)).1⟩

/-- C6 (amended): the decoder performs no hemisphere-alphabet check at
all — any ASCII hemisphere byte whatsoever (inside or outside N/S and
E/W) is passed through unchanged into the result with no warning and a
successful status, under an otherwise clean 41-byte layout; the
original claim that an out-of-alphabet hemisphere produces a
hemisphere-mismatch warning is refuted by the counterexample. -/
theorem claim6_hemisphere_passthrough (s : String)
    (ts latV lonV alt rest : List Nat) (lh gh : Nat)
    (hdec : unhexlify s.toList =
      some ([0xA4] ++ ts ++ [lh] ++ latV ++ [gh] ++ lonV ++ alt ++ [0x2D] ++ rest))
    (hts : ts.length = 8) (hlat : latV.length = 10) (hlon : lonV.length = 11)
    (halt : alt.length = 8)
    (ats : ts.all (· < 128) = true) (alat : latV.all (· < 128) = true)
    (alon : lonV.all (· < 128) = true) (aalt : alt.all (· < 128) = true)
    (hlh : lh < 128) (hgh : gh < 128) :
    (parse_hex_content s).latHemi = some (asciiStr [lh]) ∧
    (parse_hex_content s).lonHemi = some (asciiStr [gh]) ∧
    (parse_hex_content s).warningDetail = none ∧
    (parse_hex_content s).statusText = some "解析成功" := by
  rw [parse_hex_content_of_unhex s _ hdec,
    parseHexBytes_clean s ts latV lonV alt rest lh gh hts hlat hlon halt
      ats alat alon aalt hlh hgh]
  exact ⟨rfl, rfl, rfl, rfl⟩

theorem claim6_cex :
    (parse_hex_content "A431323A33343A353658343030352E37363738334531313632392E31323334352B30303039392E352D").latHemi = some "X" ∧
    (parse_hex_content "A431323A33343A353658343030352E37363738334531313632392E31323334352B30303039392E352D").warningDetail = none ∧
    (parse_hex_content "A431323A33343A353658343030352E37363738334531313632392E31323334352B30303039392E352D").errorDetail = none ∧
    (parse_hex_content "A431323A33343A353658343030352E37363738334531313632392E31323334352B30303039392E352D").statusText = some "解析成功" := by
  decide

theorem claim6_witness :
    unhexlify ("A431323A33343A353659343030352E37363738334531313632392E31323334352B30303039392E352D".toList) =
      some ([0xA4] ++ [0x31, 0x32, 0x3A, 0x33, 0x34, 0x3A, 0x35, 0x36] ++ [0x59] ++
        [0x34, 0x30, 0x30, 0x35, 0x2E, 0x37, 0x36, 0x37, 0x38, 0x33] ++ [0x45] ++
        [0x31, 0x31, 0x36, 0x32, 0x39, 0x2E, 0x31, 0x32, 0x33, 0x34, 0x35] ++
        [0x2B, 0x30, 0x30, 0x30, 0x39, 0x39, 0x2E, 0x35] ++ [0x2D] ++ []) ∧
    (parse_hex_content "A431323A33343A353659343030352E37363738334531313632392E31323334352B30303039392E352D").latHemi =
      some (asciiStr [0x59]) :=
  ⟨by decide,
   (claim6_hemisphere_passthrough
     "A431323A33343A353659343030352E37363738334531313632392E31323334352B30303039392E352D"
     [0x31, 0x32, 0x3A, 0x33, 0x34, 0x3A, 0x35, 0x36]
     [0x34, 0x30, 0x30, 0x35, 0x2E, 0x37, 0x36, 0x37, 0x38, 0x33]
     [0x31, 0x31, 0x36, 0x32, 0x39, 0x2E, 0x31, 0x32, 0x33, 0x34, 0x35]
     [0x2B, 0x30, 0x30, 0x30, 0x39, 0x39, 0x2E, 0x35] [] 0x59 0x45
     (by decide) (by decide) (by decide) (by decide) (by decide) (by decide)
     (by decide) (by decide) (by decide) (by decide) (by decide)).1⟩

/-- C7 (amended): the coordinate normalizer produces a value exactly
when the raw string matches the pattern the code actually checks —
one-or-more digits, a dot, one-or-more digits, with exactly 4 or 5
integer digits (the fractional part is NOT required to have exactly 5
digits) — and the produced value is the degree-minute combination
deg + minutes/60 negated for S/W, with every arithmetic step rounded
to IEEE binary64 (fl) and the result rounded to 6 decimal places by
round-half-even; in particular (N, 4005.76783) normalizes to the
binary64 value nearest 40.096131 — not 40.096130 as originally
claimed. -/
theorem claim7_normalizer (dmm hemi : String) :
    ((convert_dmm_to_decimal (some dmm) (some hemi)).isSome = true ↔ dmmShape dmm = true) ∧
    (∀ q : ℚ, convert_dmm_to_decimal (some dmm) (some hemi) = some q →
      q = pyRound6 (hemiSign hemi *
        fl ((dmmDegrees dmm : ℚ) + fl (fl (dmmMinutes dmm) / 60)))) ∧
    convert_dmm_to_decimal (some "4005.76783") (some "N") =
      some (fl ((40096131 : ℚ)/1000000)) := by
  refine ⟨convert_isSome_iff dmm hemi, ?_, convert_N_4005⟩
  intro q hq
  have hs : (convert_dmm_to_decimal (some dmm) (some hemi)).isSome = true := by
    rw [hq]
    rfl
  obtain ⟨ip, fp, hv, hip, hfp, hipne, hfpne, hl, hipeq⟩ :=
    dmmShape_decomp dmm ((convert_isSome_iff dmm hemi).1 hs)
  rw [convert_eval dmm hemi ip fp hv hip hfp hipne hfpne hl] at hq
  rw [Option.some_inj] at hq
  rw [← hq]
  have hfpeq : (stripNl dmm).toList.drop (ip.length + 1) = fp := by
    rw [hv]
    rw [show ip ++ '.' :: fp = (ip ++ ['.']) ++ fp from by simp]
    rw [show ip.length + 1 = (ip ++ ['.']).length from by simp]
    exact List.drop_left _ _
  have hdeg : dmmDegrees dmm = digitsVal (ip.take (ip.length - 2)) := by
    simp only [dmmDegrees]
    rw [← hipeq]
  have hmin : dmmMinutes dmm =
      (digitsVal (ip.drop (ip.length - 2)) : ℚ) + (digitsVal fp : ℚ) / (10 : ℚ) ^ fp.length := by
    simp only [dmmMinutes]
    rw [← hipeq, hfpeq]
  rw [hdeg, hmin]
  unfold hemiSign
  split_ifs with hsw
  · congr 1
    ring
  · congr 1
    ring

theorem claim7_cex :
    (convert_dmm_to_decimal (some "1234.5") (some "N")).isSome = true ∧
    latShapeDDMM "1234.5" = false ∧
    lonShapeDDDMM "1234.5" = false ∧
    convert_dmm_to_decimal (some "4005.76783") (some "N") ≠
      some ((4009613 : ℚ)/100000) := by
  refine ⟨by decide, by decide, by decide, ?_⟩
  rw [convert_N_4005, fl_Q_step]
  intro hc
  rw [Option.some_inj] at hc
  norm_num at hc

theorem claim7_witness :
    convert_dmm_to_decimal (some "4005.76783") (some "N") =
      some (fl ((40096131 : ℚ)/1000000)) :=
  (claim7_normalizer "4005.76783" "N").2.2

/-- C8 (amended): on a raw string matching the altitude pattern
(optional sign, 1-5 integer digits, a dot, exactly 1 fractional
digit), the display is the value with exactly one fractional digit and
the unit suffix, with an explicit plus sign prepended for unsigned and
plus-signed values; a minus-signed nonzero value keeps only its minus
sign; but a minus-signed ZERO renders with BOTH signs, as the
float-formatted "-0.0" additionally receives the plus prefix (the
value >= 0 test is true for negative zero) — so the original claim of
one explicit leading sign fails exactly there; non-matching raw
strings are returned annotated as malformed. -/
theorem claim8_altitude_display (alt : String) :
    (altShape alt = true → (stripNl alt).toList.head? = some '-' → altTenths alt ≠ 0 →
      format_altitude alt = "-" ++ (fmt1Tenths (altTenths alt) ++ "米")) ∧
    (altShape alt = true → ¬ (stripNl alt).toList.head? = some '-' →
      format_altitude alt = "+" ++ (fmt1Tenths (altTenths alt) ++ "米")) ∧
    (altShape alt = true → (stripNl alt).toList.head? = some '-' → altTenths alt = 0 →
      format_altitude alt = "+" ++ ("-" ++ (fmt1Tenths (altTenths alt) ++ "米"))) ∧
    (altShape alt = false → format_altitude alt = alt ++ " (格式错误或缺失)") := by
  refine ⟨?_, ?_, ?_, ?_⟩
  · intro h hm hn
    have hm2 : (stripNl alt).data.head? = some '-' := hm
    simp [format_altitude, h, hm2, hn, str_append_assoc]
  · intro h hm
    have hm2 : ¬ (stripNl alt).data.head? = some '-' := hm
    simp [format_altitude, h, hm2, str_append_assoc, str_empty_append]
  · intro h hm hn
    have hm2 : (stripNl alt).data.head? = some '-' := hm
    simp [format_altitude, h, hm2, hn, str_append_assoc]
  · intro h
    simp [format_altitude, h]

theorem claim8_cex :
    altShape "-00000.0" = true ∧
    format_altitude "-00000.0" = "+-0.0米" ∧
    format_altitude "-00000.0" ≠ "+0.0米" ∧
    format_altitude "-00000.0" ≠ "-0.0米" := by
  decide

theorem claim8_witness :
    altShape "+00099.5" = true ∧
    ¬ (stripNl "+00099.5").toList.head? = some '-' ∧
    format_altitude "+00099.5" = "+" ++ (fmt1Tenths (altTenths "+00099.5") ++ "米") :=
  ⟨by decide, by decide, (claim8_altitude_display "+00099.5").2.1 (by decide) (by decide)⟩

/-- C9: every parse outcome is exactly one of fatal (an error detail is
present, error class), success-with-warnings (no error detail, a
warning is present, and the status renders the stripped warning with
the error class — the presentation treats warnings at error severity),
or clean success (no error detail, no warning, 解析成功 with the
success class); and the concrete 41-byte buffer whose separator byte
is 0x2B parses to success-with-warnings naming the separator anomaly,
not to a fatal outcome. -/
theorem claim9_outcome_trichotomy (s : String) :
    (((parse_hex_content s).errorDetail.isSome ∧ (parse_hex_content s).statusText.isSome ∧
      (parse_hex_content s).statusClass = some "error-text") ∨
     ((parse_hex_content s).errorDetail = none ∧
      (∃ w, (parse_hex_content s).warningDetail = some w ∧
        (parse_hex_content s).statusText = some ("解析警告: " ++ pyStrip w)) ∧
      (parse_hex_content s).statusClass = some "error-text") ∨
     ((parse_hex_content s).errorDetail = none ∧ (parse_hex_content s).warningDetail = none ∧
      (parse_hex_content s).statusText = some "解析成功" ∧
      (parse_hex_content s).statusClass = some "success-text")) ∧
    ((parse_hex_content "A431323A33343A35364E343030352E37363738334531313632392E31323334352B30303039392E352B").errorDetail = none ∧
     (parse_hex_content "A431323A33343A35364E343030352E37363738334531313632392E31323334352B30303039392E352B").warningDetail =
       some " 隔离符不是 \x27-\x27 (0x2D)。" ∧
     (parse_hex_content "A431323A33343A35364E343030352E37363738334531313632392E31323334352B30303039392E352B").statusText =
       some "解析警告: 隔离符不是 \x27-\x27 (0x2D)。" ∧
     (parse_hex_content "A431323A33343A35364E343030352E37363738334531313632392E31323334352B30303039392E352B").statusClass =
       some "error-text") :=
  ⟨parse_cases_all s, by decide, by decide, by decide, by decide⟩

/-- C10: the mixed-encoding trailing-text decoder is the identity
(through ASCII decoding) on any all-ASCII byte list: a two-byte GBK
attempt never fires on a pair of bytes below 0x80 (the GBK lead range
starts at 0x81), so every byte takes the single-byte ASCII path and no
character is altered, escaped, or dropped. -/
theorem claim10_ascii_identity (bs : List Nat) (h : ∀ b ∈ bs, b ≤ 127) :
    mixedDecode bs = asciiStr bs :=
  mixedDecode_ascii bs h

theorem claim10_witness :
    (∀ b ∈ [(72 : Nat), 105], b ≤ 127) ∧
    mixedDecode [72, 105] = asciiStr [72, 105] :=
  ⟨by decide, claim10_ascii_identity [72, 105] (by decide)⟩

end Telemetry
